import Mathlib

/-! Shallow embedding of the workout_ai generation pipeline.

JSON values decoded by Python's `json.loads` are modelled by the `Json`
inductive; Python exceptions raised by the code under verification are
modelled by the `PyErr` inductive and the `Py` result monad. -/

/-- A decoded JSON value, as produced by Python's `json` module
(floats are not needed by any code path modelled here and are omitted). -/
inductive Json where
  | null : Json
  | bool : Bool → Json
  | num : Int → Json
  | str : String → Json
  | arr : List Json → Json
  | obj : List (String × Json) → Json

/-- Python exceptions that the modelled code can raise.  `jsonDecodeError`
stands for `json.JSONDecodeError`, which Python defines as a subclass of
`ValueError`. -/
inductive PyErr where
  | valueError (msg : String)
  | keyError (key : String)
  | typeError (msg : String)
  | attributeError (msg : String)
  | indexError
  | jsonDecodeError (msg : String)
  | openAIError (msg : String)
  | httpException (status : Nat) (detail : String)
  | assertionError (msg : String)
deriving Repr, DecidableEq

/-- Result of running a piece of Python code: a value or a raised exception. -/
abbrev Py (α : Type) := Except PyErr α

/-- Python truthiness of a decoded JSON value (`if value:`). -/
def pyTruthy : Json → Bool
  | .null => false
  | .bool b => b
  | .num n => n != 0
  | .str s => s ≠ ""
  | .arr xs => !xs.isEmpty
  | .obj kvs => !kvs.isEmpty

/-- First-match association lookup, as for a Python `dict` built by `json.loads`
(later duplicate keys win in Python; `json.loads` output has unique keys, and
all concrete inputs used here have unique keys, so first-match is faithful). -/
def lookupAssoc : List (String × Json) → String → Option Json
  | [], _ => none
  | (k, v) :: rest, key => if k = key then some v else lookupAssoc rest key

/-- Python `d.get(key, default)`: only `dict` has `.get`; any other value
raises `AttributeError`. -/
def pyGet (j : Json) (key : String) (dflt : Json) : Py Json :=
  match j with
  | .obj kvs =>
    match lookupAssoc kvs key with
    | some v => .ok v
    | none => .ok dflt
  | _ => .error (.attributeError ("object has no attribute get: " ++ key))

/-- Python `d[key]` with a string key: `KeyError` on a missing `dict` key,
`TypeError` when the value is not a `dict`. -/
def pySubscript (j : Json) (key : String) : Py Json :=
  match j with
  | .obj kvs =>
    match lookupAssoc kvs key with
    | some v => .ok v
    | none => .error (.keyError key)
  | _ => .error (.typeError ("value is not subscriptable by string: " ++ key))

/-- Python `for x in v` over a decoded JSON value: lists yield elements,
strings yield one-character strings, dicts yield their keys, and scalars
raise `TypeError`. -/
def pyIter (j : Json) : Py (List Json) :=
  match j with
  | .arr xs => .ok xs
  | .str s => .ok (s.data.map (fun c => Json.str (String.singleton c)))
  | .obj kvs => .ok (kvs.map (fun kv => Json.str kv.1))
  | _ => .error (.typeError "object is not iterable")

/-- Python `str()` of a decoded JSON value (used only inside error messages). -/
def pyStr : Json → String
  | .null => "None"
  | .bool true => "True"
  | .bool false => "False"
  | .num n => toString n
  | .str s => s
  | .arr _ => "<list>"
  | .obj _ => "<dict>"

/-- The message text Python would render for an exception (used by the
`f"Failed to parse OpenAI response: {str(e)}"` wrapper). -/
def pyErrStr : PyErr → String
  | .valueError m => m
  | .keyError k => String.singleton (Char.ofNat 39) ++ k ++ String.singleton (Char.ofNat 39)
  | .typeError m => m
  | .attributeError m => m
  | .indexError => "list index out of range"
  | .jsonDecodeError m => m
  | .openAIError m => m
  | .httpException _ d => d
  | .assertionError m => m

/-- Sequential mapping with exception propagation: the meaning of the list
comprehension `[f(x) for x in xs]` when `f` can raise. -/
def pyMapM (f : α → Py β) : List α → Py (List β)
  | [] => .ok []
  | x :: xs =>
    match f x with
    | .error e => .error e
    | .ok y =>
      match pyMapM f xs with
      | .error e => .error e
      | .ok ys => .ok (y :: ys)

theorem pyMapM_ok_of_mem {f : α → Py β} {xs : List α} {ys : List β}
    (h : pyMapM f xs = .ok ys) {x : α} (hx : x ∈ xs) : ∃ y, f x = .ok y := by
  induction xs generalizing ys with
  | nil => cases hx
  | cons a as ih =>
    rw [pyMapM] at h
    cases hfa : f a with
    | error e => rw [hfa] at h; exact absurd h (by simp)
    | ok y =>
      rw [hfa] at h
      cases hx with
      | head => exact ⟨y, hfa⟩
      | tail _ hmem =>
        cases hrest : pyMapM f as with
        | error e => rw [hrest] at h; exact absurd h (by simp)
        | ok ys' => exact ih hrest hmem

/-- Python `s.strip()` (whitespace on both ends). -/
def pyStrip (s : String) : String :=
  ⟨(s.data.dropWhile Char.isWhitespace).reverse.dropWhile Char.isWhitespace |>.reverse⟩

def lbraceChar : Char := Char.ofNat 123

def rbraceChar : Char := Char.ofNat 125

/-- JSON insignificant whitespace. -/
def isJsonWs (c : Char) : Bool :=
  c = ' ' || c = '\n' || c = '\t' || c = '\r'

def skipWs (cs : List Char) : List Char := cs.dropWhile isJsonWs

/-- Decoding of a two-character JSON escape sequence (the escapes emitted by
`json.dump` for the strings this system stores). -/
def unescapeChar (c : Char) : Option Char :=
  if c = '"' then some '"'
  else if c = '\\' then some '\\'
  else if c = '/' then some '/'
  else if c = 'n' then some '\n'
  else if c = 't' then some '\t'
  else if c = 'r' then some '\r'
  else if c = 'b' then some (Char.ofNat 8)
  else if c = 'f' then some (Char.ofNat 12)
  else none

/-- Scan a JSON string body up to its closing quote, returning the decoded
characters and the remaining input. -/
def parseStringBody : List Char → Option (List Char × List Char)
  | [] => none
  | c :: cs =>
    if c = '"' then some ([], cs)
    else if c = '\\' then
      match cs with
      | [] => none
      | e :: cs' =>
        match unescapeChar e with
        | none => none
        | some u =>
          match parseStringBody cs' with
          | none => none
          | some (s, r) => some (u :: s, r)
    else
      match parseStringBody cs with
      | none => none
      | some (s, r) => some (c :: s, r)

def parseDigits : List Char → Nat → Option (Nat × List Char)
  | [], acc => some (acc, [])
  | c :: cs, acc =>
    if c.isDigit then parseDigits cs (acc * 10 + (c.toNat - 48))
    else some (acc, c :: cs)

/-- Parse a JSON integer literal (a leading minus sign and digits; the decoded
corpus used by this system contains no floats). -/
def parseNumber : List Char → Option (Json × List Char)
  | [] => none
  | c :: cs =>
    if c = '-' then
      match cs with
      | d :: ds =>
        if d.isDigit then
          match parseDigits ds (d.toNat - 48) with
          | some (n, rest) => some (.num (-(n : Int)), rest)
          | none => none
        else none
      | [] => none
    else if c.isDigit then
      match parseDigits cs (c.toNat - 48) with
      | some (n, rest) => some (.num (n : Int), rest)
      | none => none
    else none

/-- Parser continuation mode: which JSON production is being parsed.
The accumulators carry the object members / array items collected so far. -/
inductive PMode where
  | value : PMode
  | objBody : PMode
  | membersRest : List (String × Json) → PMode
  | arrBody : PMode
  | itemsRest : List Json → PMode

/-- Recursive-descent JSON parser modelling `json.loads`; `fuel` strictly
decreases on every recursive call so the parser is structurally recursive
(and therefore kernel-computable on concrete inputs). -/
def parseStep : Nat → PMode → List Char → Option (Json × List Char)
  | 0, _, _ => none
  | f + 1, mode, cs =>
    match mode with
    | .value =>
      match skipWs cs with
      | [] => none
      | c :: rest =>
        if c = lbraceChar then parseStep f .objBody rest
        else if c = '[' then parseStep f .arrBody rest
        else if c = '"' then
          match parseStringBody rest with
          | none => none
          | some (s, r) => some (.str ⟨s⟩, r)
        else if c = 't' then
          match rest with
          | 'r' :: 'u' :: 'e' :: r => some (.bool true, r)
          | _ => none
        else if c = 'f' then
          match rest with
          | 'a' :: 'l' :: 's' :: 'e' :: r => some (.bool false, r)
          | _ => none
        else if c = 'n' then
          match rest with
          | 'u' :: 'l' :: 'l' :: r => some (.null, r)
          | _ => none
        else parseNumber (c :: rest)
    | .objBody =>
      match skipWs cs with
      | [] => none
      | c :: rest =>
        if c = rbraceChar then some (.obj [], rest)
        else if c = '"' then
          match parseStringBody rest with
          | none => none
          | some (k, cs1) =>
            match skipWs cs1 with
            | ':' :: cs2 =>
              match parseStep f .value cs2 with
              | none => none
              | some (v, cs3) => parseStep f (.membersRest [(⟨k⟩, v)]) cs3
            | _ => none
        else none
    | .membersRest acc =>
      match skipWs cs with
      | [] => none
      | c :: rest =>
        if c = rbraceChar then some (.obj acc, rest)
        else if c = ',' then
          match skipWs rest with
          | c2 :: rest2 =>
            if c2 = '"' then
              match parseStringBody rest2 with
              | none => none
              | some (k, cs1) =>
                match skipWs cs1 with
                | ':' :: cs2 =>
                  match parseStep f .value cs2 with
                  | none => none
                  | some (v, cs3) => parseStep f (.membersRest (acc ++ [(⟨k⟩, v)])) cs3
                | _ => none
            else none
          | [] => none
        else none
    | .arrBody =>
      match skipWs cs with
      | [] => none
      | c :: rest =>
        if c = ']' then some (.arr [], rest)
        else
          match parseStep f .value cs with
          | none => none
          | some (v, cs1) => parseStep f (.itemsRest [v]) cs1
    | .itemsRest acc =>
      match skipWs cs with
      | [] => none
      | c :: rest =>
        if c = ']' then some (.arr acc, rest)
        else if c = ',' then
          match parseStep f .value rest with
          | none => none
          | some (v, cs1) => parseStep f (.itemsRest (acc ++ [v])) cs1
        else none

/-- `json.loads`: parse a complete JSON document, rejecting trailing data.
The fuel `2 * length + 2` dominates the recursion depth of any input. -/
def json_loads (raw : String) : Py Json :=
  match parseStep (2 * raw.data.length + 2) .value raw.data with
  | some (j, rest) =>
    if skipWs rest = [] then .ok j else .error (.jsonDecodeError "Extra data")
  | none => .error (.jsonDecodeError "Expecting value")

example : json_loads "\x7b\"name\": \"P\", \"weeks\": []\x7d" =
    .ok (.obj [("name", .str "P"), ("weeks", .arr [])]) := rfl

example : json_loads "  \x7b \"a\" : [1, -2, null, true, \"x\"] \x7d " =
    .ok (.obj [("a", .arr [.num 1, .num (-2), .null, .bool true, .str "x"])]) := rfl

example : (json_loads "```json").isOk = false := rfl

example : json_loads "\x7b\"openai_response\": \"he said \\\"hi\\\"\"\x7d" =
    .ok (.obj [("openai_response", .str "he said \"hi\"")]) := rfl

/-! ## Data model (src/backend/models/workouts.py)

The pydantic models of the plan hierarchy.  Pydantic validation of the
variant-specific `details` payloads is modelled structurally: a `str` field
accepts a JSON string, an `Optional[int]` field accepts a JSON number or
null, and so on; a missing optional field receives its declared default and
a missing or ill-typed required field raises `ValidationError`, which
pydantic derives from `ValueError`. -/

structure Movement where
  description : String
  resources : Option String
deriving Repr, DecidableEq

structure WOD where
  description : String
  intended_stimulus : String
  scaling_options : String
  movements : List Movement
deriving Repr, DecidableEq

structure Strength where
  description : String
  sets : Option Int
  reps : Option Int
  intensity : Option String
  rest : Option String
  notes : Option String
deriving Repr, DecidableEq

structure RestDay where
  type : String := "Rest Day"
  description : Option String := some "Take the day off to recover."
  notes : Option String := some "Take the day off to recover."
deriving Repr, DecidableEq

structure ActiveRecoveryDay where
  type : String := "Active Recovery"
  description : Option String := none
  activities : Option (List String) := some ["Mobility work", "Light cardio", "Foam rolling"]
  duration : Option String := some "30-60 minutes"
  intensity : Option String := some "Low"
deriving Repr, DecidableEq

/-- The four session variants, a discriminated union over `SessionDetails`
subclasses. -/
inductive SessionDetails where
  | wod : WOD → SessionDetails
  | strength : Strength → SessionDetails
  | restDay : RestDay → SessionDetails
  | activeRecovery : ActiveRecoveryDay → SessionDetails
deriving Repr, DecidableEq

structure Session where
  type : String
  details : SessionDetails
deriving Repr, DecidableEq

structure Day where
  sessions : List Session
deriving Repr, DecidableEq

structure Week where
  days : List Day
deriving Repr, DecidableEq

structure WorkoutPlan where
  name : String
  weeks : List Week
deriving Repr, DecidableEq

/-- The request model.  `duration` is modelled as a `Nat` (the source
declares `Optional[int] = 8`; a `None` duration would crash `range` and is
outside every claim considered here). -/
structure WorkoutRequest where
  name : String
  age : Int
  experience : String
  goals : List String
  equipment : List String
  injuries : Option (List String) := none
  avoid_exercises : Option (List String) := none
  sessions_per_week : Option Int := some 6
  training_preferences : Option (List String) := none
  constraints : Option (List String) := none
  duration : Nat := 8
  recovery_days : Option Int := none

/-! ### Structural pydantic field validation helpers -/

/-- A required `str` field. -/
def reqStrField (kvs : List (String × Json)) (key : String) : Py String :=
  match lookupAssoc kvs key with
  | some (.str s) => .ok s
  | some _ => .error (.valueError ("validation error: " ++ key))
  | none => .error (.valueError ("field required: " ++ key))

/-- An `Optional[str]` field with its declared default. -/
def optStrField (kvs : List (String × Json)) (key : String) (dflt : Option String) :
    Py (Option String) :=
  match lookupAssoc kvs key with
  | none => .ok dflt
  | some .null => .ok none
  | some (.str s) => .ok (some s)
  | some _ => .error (.valueError ("validation error: " ++ key))

/-- An `Optional[int]` field with its declared default. -/
def optIntField (kvs : List (String × Json)) (key : String) (dflt : Option Int) :
    Py (Option Int) :=
  match lookupAssoc kvs key with
  | none => .ok dflt
  | some .null => .ok none
  | some (.num n) => .ok (some n)
  | some _ => .error (.valueError ("validation error: " ++ key))

/-- A JSON value validated as a `str` (for list elements). -/
def asStrValue (j : Json) : Py String :=
  match j with
  | .str s => .ok s
  | _ => .error (.valueError "validation error: str expected")

/-- An `Optional[List[str]]` field with its declared default. -/
def optStrListField (kvs : List (String × Json)) (key : String)
    (dflt : Option (List String)) : Py (Option (List String)) :=
  match lookupAssoc kvs key with
  | none => .ok dflt
  | some .null => .ok none
  | some (.arr xs) =>
    match pyMapM asStrValue xs with
    | .error e => .error e
    | .ok ss => .ok (some ss)
  | some _ => .error (.valueError ("validation error: " ++ key))

/-- Pydantic validation of `Movement(**·)`. -/
def Movement.validate (j : Json) : Py Movement :=
  match j with
  | .obj kvs =>
    match reqStrField kvs "description" with
    | .error e => .error e
    | .ok d =>
      match optStrField kvs "resources" none with
      | .error e => .error e
      | .ok r => .ok ⟨d, r⟩
  | _ => .error (.valueError "validation error: movement must be a mapping")

/-- Pydantic validation of `WOD(**details)`. -/
def WOD.validate (kvs : List (String × Json)) : Py WOD :=
  match reqStrField kvs "description" with
  | .error e => .error e
  | .ok d =>
    match reqStrField kvs "intended_stimulus" with
    | .error e => .error e
    | .ok stim =>
      match reqStrField kvs "scaling_options" with
      | .error e => .error e
      | .ok sc =>
        match lookupAssoc kvs "movements" with
        | some (.arr xs) =>
          match pyMapM Movement.validate xs with
          | .error e => .error e
          | .ok ms => .ok ⟨d, stim, sc, ms⟩
        | some _ => .error (.valueError "validation error: movements")
        | none => .error (.valueError "field required: movements")

/-- Pydantic validation of `Strength(**details)`. -/
def Strength.validate (kvs : List (String × Json)) : Py Strength :=
  match reqStrField kvs "description" with
  | .error e => .error e
  | .ok d =>
    match optIntField kvs "sets" none with
    | .error e => .error e
    | .ok sets =>
      match optIntField kvs "reps" none with
      | .error e => .error e
      | .ok reps =>
        match optStrField kvs "intensity" none with
        | .error e => .error e
        | .ok inten =>
          match optStrField kvs "rest" none with
          | .error e => .error e
          | .ok rest =>
            match optStrField kvs "notes" none with
            | .error e => .error e
            | .ok notes => .ok ⟨d, sets, reps, inten, rest, notes⟩

/-- Pydantic validation of `RestDay(**details)`. -/
def RestDay.validate (kvs : List (String × Json)) : Py RestDay :=
  match (match lookupAssoc kvs "type" with
         | none => (.ok "Rest Day" : Py String)
         | some (.str s) => .ok s
         | some _ => .error (.valueError "validation error: type")) with
  | .error e => .error e
  | .ok ty =>
    match optStrField kvs "description" (some "Take the day off to recover.") with
    | .error e => .error e
    | .ok d =>
      match optStrField kvs "notes" (some "Take the day off to recover.") with
      | .error e => .error e
      | .ok n => .ok ⟨ty, d, n⟩

/-- Pydantic validation of `ActiveRecoveryDay(**details)`. -/
def ActiveRecoveryDay.validate (kvs : List (String × Json)) : Py ActiveRecoveryDay :=
  match (match lookupAssoc kvs "type" with
         | none => (.ok "Active Recovery" : Py String)
         | some (.str s) => .ok s
         | some _ => .error (.valueError "validation error: type")) with
  | .error e => .error e
  | .ok ty =>
    match optStrField kvs "description" none with
    | .error e => .error e
    | .ok d =>
      match optStrListField kvs "activities"
          (some ["Mobility work", "Light cardio", "Foam rolling"]) with
      | .error e => .error e
      | .ok acts =>
        match optStrField kvs "duration" (some "30-60 minutes") with
        | .error e => .error e
        | .ok du =>
          match optStrField kvs "intensity" (some "Low") with
          | .error e => .error e
          | .ok inten => .ok ⟨ty, d, acts, du, inten⟩

/-! ## Strict session parsing (src/backend/models/workouts.py, from_dict) -/

/-- `SessionDetails.from_dict`: dispatch on the `type` tag through the
`session_classes` table; an unrecognized tag raises
`ValueError(f"Unknown session type: {type}")`.  When the tag is recognized,
`session_cls(**details)` requires `details` to be a mapping (`TypeError`
otherwise) and then runs pydantic validation. -/
def SessionDetails.from_dict (type : Json) (details : Json) : Py SessionDetails :=
  let unpack : (List (String × Json) → Py SessionDetails) → Py SessionDetails :=
    fun validate =>
      match details with
      | .obj kvs => validate kvs
      | _ => .error (.typeError "argument after ** must be a mapping")
  match type with
  | .str t =>
    if t = "WOD" then unpack (fun kvs =>
      match WOD.validate kvs with
      | .error e => .error e
      | .ok w => .ok (.wod w))
    else if t = "Strength" then unpack (fun kvs =>
      match Strength.validate kvs with
      | .error e => .error e
      | .ok s => .ok (.strength s))
    else if t = "Rest Day" then unpack (fun kvs =>
      match RestDay.validate kvs with
      | .error e => .error e
      | .ok r => .ok (.restDay r))
    else if t = "Active Recovery" then unpack (fun kvs =>
      match ActiveRecoveryDay.validate kvs with
      | .error e => .error e
      | .ok a => .ok (.activeRecovery a))
    else .error (.valueError ("Unknown session type: " ++ t))
  | _ => .error (.valueError ("Unknown session type: " ++ pyStr type))

/-- `Session.from_dict`: read `session_data["type"]` and
`session_data["details"]`, dispatch through `SessionDetails.from_dict`, and
build the `Session` (whose `type` field pydantic requires to be a string;
`SessionDetails.from_dict` only succeeds on string tags). -/
def Session.from_dict (session_data : Json) : Py Session :=
  match pySubscript session_data "type" with
  | .error e => .error e
  | .ok session_type =>
    match pySubscript session_data "details" with
    | .error e => .error e
    | .ok details =>
      match SessionDetails.from_dict session_type details with
      | .error e => .error e
      | .ok d =>
        match session_type with
        | .str t => .ok ⟨t, d⟩
        | _ => .error (.valueError "validation error: type")

/-! ## Strict plan parsing (src/backend/core/response_parser.py) -/

/-- One day of `parse_openai_response`:
`[Session.from_dict(session) for session in day_data.get("sessions", [])]`. -/
def parse_day (day_data : Json) : Py Day :=
  match pyGet day_data "sessions" (.arr []) with
  | .error e => .error e
  | .ok sj =>
    match pyIter sj with
    | .error e => .error e
    | .ok items =>
      match pyMapM Session.from_dict items with
      | .error e => .error e
      | .ok sessions => .ok ⟨sessions⟩

/-- One week of `parse_openai_response`: the loop over `week_data.get("days", [])`. -/
def parse_week (week_data : Json) : Py Week :=
  match pyGet week_data "days" (.arr []) with
  | .error e => .error e
  | .ok dj =>
    match pyIter dj with
    | .error e => .error e
    | .ok items =>
      match pyMapM parse_day items with
      | .error e => .error e
      | .ok days => .ok ⟨days⟩

/-- The body of `parse_openai_response` after `json.loads`: the loop over
`response_data.get("weeks", [])` followed by
`WorkoutPlan(name=response_data["name"], weeks=weeks)` (the `name` subscript
raises `KeyError` when absent and pydantic requires a string). -/
def parse_plan_json (response_data : Json) : Py WorkoutPlan :=
  match pyGet response_data "weeks" (.arr []) with
  | .error e => .error e
  | .ok wj =>
    match pyIter wj with
    | .error e => .error e
    | .ok items =>
      match pyMapM parse_week items with
      | .error e => .error e
      | .ok weeks =>
        match pySubscript response_data "name" with
        | .error e => .error e
        | .ok (.str n) => .ok ⟨n, weeks⟩
        | .ok _ => .error (.valueError "validation error: name")

/-- The exception classes caught by the parser's
`except (json.JSONDecodeError, KeyError, ValueError)` clause. -/
def caughtByParser : PyErr → Bool
  | .valueError _ => true
  | .keyError _ => true
  | .jsonDecodeError _ => true
  | _ => false

/-- Re-raise as `ValueError(f"Failed to parse OpenAI response: {str(e)}")`
when caught; propagate unchanged otherwise. -/
def wrapParseError (e : PyErr) : PyErr :=
  if caughtByParser e then .valueError ("Failed to parse OpenAI response: " ++ pyErrStr e)
  else e

/-- `parse_openai_response` (src/backend/core/response_parser.py): strict
parsing of the raw generator text into a `WorkoutPlan`. -/
def parse_openai_response (raw_json : String) : Py WorkoutPlan :=
  match json_loads raw_json with
  | .error e => .error (wrapParseError e)
  | .ok j =>
    match parse_plan_json j with
    | .error e => .error (wrapParseError e)
    | .ok p => .ok p

example : parse_openai_response "\x7b\"name\": \"P\", \"weeks\": []\x7d" = .ok ⟨"P", []⟩ := rfl

example : parse_openai_response
    "\x7b\"name\": \"P\", \"weeks\": [\x7b\"days\": [\x7b\"sessions\": [\x7b\"type\": \"Rest Day\", \"details\": \x7b\x7d\x7d]\x7d]\x7d]\x7d"
    = .ok ⟨"P", [⟨[⟨[⟨"Rest Day", .restDay ⟨"Rest Day", some "Take the day off to recover.",
        some "Take the day off to recover."⟩⟩]⟩]⟩]⟩ := rfl

example : parse_openai_response
    "\x7b\"name\": \"P\", \"weeks\": [\x7b\"days\": [\x7b\"sessions\": [\x7b\"type\": \"Unknown\", \"details\": \x7b\x7d\x7d]\x7d]\x7d]\x7d"
    = .error (.valueError "Failed to parse OpenAI response: Unknown session type: Unknown") := rfl

/-! ## Lenient plan parsing (src/backend/api/workouts.py, parse_openai_response)

The API module carries its own copy of the parser.  It dispatches on the
`type` string with `if/elif` chains and has no `else`: a session whose type
matches none of `"WOD"`, `"Strength"`, `"RestDay"`, `"Active Recovery"` is
silently skipped.  (Note the `"RestDay"` spelling: a `"Rest Day"` session is
also skipped by this variant.) -/

namespace ApiWorkouts

/-- Python `session_type == "WOD"`-style comparison of a decoded value with
a string literal. -/
def jsonEqStr (j : Json) (s : String) : Bool :=
  match j with
  | .str t => t = s
  | _ => false

/-- `Movement(description=movement.get("description"), resources=movement.get("resources"))`
inside the comprehension of the WOD branch. -/
def movementOfItem (movement : Json) : Py Movement :=
  match pyGet movement "description" .null with
  | .error e => .error e
  | .ok d =>
    match pyGet movement "resources" .null with
    | .error e => .error e
    | .ok r =>
      match d with
      | .str ds =>
        match r with
        | .null => .ok ⟨ds, none⟩
        | .str rs => .ok ⟨ds, some rs⟩
        | _ => .error (.valueError "validation error: resources")
      | _ => .error (.valueError "validation error: description")

/-- The body of one iteration of the session loop: returns `some session`
for a recognized type, `none` (skip) for an unrecognized one. -/
def sessionOfItem (session_data : Json) : Py (Option Session) :=
  match pyGet session_data "type" .null with
  | .error e => .error e
  | .ok session_type =>
    match pyGet session_data "details" .null with
    | .error e => .error e
    | .ok details =>
      if jsonEqStr session_type "WOD" then
        match pyGet details "description" .null with
        | .error e => .error e
        | .ok d =>
          match pyGet details "intended_stimulus" .null with
          | .error e => .error e
          | .ok stim =>
            match pyGet details "scaling_options" .null with
            | .error e => .error e
            | .ok sc =>
              match pyGet details "movements" (.arr []) with
              | .error e => .error e
              | .ok mj =>
                match pyIter mj with
                | .error e => .error e
                | .ok mitems =>
                  match pyMapM movementOfItem mitems with
                  | .error e => .error e
                  | .ok ms =>
                    match d, stim, sc with
                    | .str ds, .str stims, .str scs =>
                      .ok (some ⟨"WOD", .wod ⟨ds, stims, scs, ms⟩⟩)
                    | _, _, _ => .error (.valueError "validation error: WOD")
      else if jsonEqStr session_type "Strength" then
        match pyGet details "description" .null with
        | .error e => .error e
        | .ok d =>
          match pyGet details "sets" .null with
          | .error e => .error e
          | .ok sets =>
            match pyGet details "reps" .null with
            | .error e => .error e
            | .ok reps =>
              match pyGet details "intensity" .null with
              | .error e => .error e
              | .ok inten =>
                match pyGet details "rest" .null with
                | .error e => .error e
                | .ok rest =>
                  match pyGet details "notes" .null with
                  | .error e => .error e
                  | .ok notes =>
                    match d with
                    | .str ds =>
                      match (match sets with
                             | .null => (.ok none : Py (Option Int))
                             | .num n => .ok (some n)
                             | _ => .error (.valueError "validation error: sets")) with
                      | .error e => .error e
                      | .ok setsv =>
                        match (match reps with
                               | .null => (.ok none : Py (Option Int))
                               | .num n => .ok (some n)
                               | _ => .error (.valueError "validation error: reps")) with
                        | .error e => .error e
                        | .ok repsv =>
                          match optStrOf inten with
                          | .error e => .error e
                          | .ok iv =>
                            match optStrOf rest with
                            | .error e => .error e
                            | .ok rv =>
                              match optStrOf notes with
                              | .error e => .error e
                              | .ok nv =>
                                .ok (some ⟨"Strength", .strength ⟨ds, setsv, repsv, iv, rv, nv⟩⟩)
                    | _ => .error (.valueError "validation error: description")
      else if jsonEqStr session_type "RestDay" then
        match pySubscript session_data "details" with
        | .error e => .error e
        | .ok d2 =>
          match pyGet d2 "notes" (.str "Take the day off to recover.") with
          | .error e => .error e
          | .ok nj =>
            match nj with
            | .str ns =>
              .ok (some ⟨"Rest Day", .restDay ⟨"Rest Day",
                some "Take the day off to recover.", some ns⟩⟩)
            | .null => .ok (some ⟨"Rest Day", .restDay ⟨"Rest Day",
                some "Take the day off to recover.", none⟩⟩)
            | _ => .error (.valueError "validation error: notes")
      else if jsonEqStr session_type "Active Recovery" then
        match pyGet details "activities" (.arr []) with
        | .error e => .error e
        | .ok aj =>
          match pyGet details "duration" (.str "30-60 minutes") with
          | .error e => .error e
          | .ok du =>
            match pyGet details "intensity" (.str "Low") with
            | .error e => .error e
            | .ok inten =>
              match aj with
              | .arr xs =>
                match pyMapM asStrValue xs with
                | .error e => .error e
                | .ok acts =>
                  match (match du with
                         | .null => (.ok none : Py (Option String))
                         | .str s => .ok (some s)
                         | _ => .error (.valueError "validation error: duration")) with
                  | .error e => .error e
                  | .ok duv =>
                    match (match inten with
                           | .null => (.ok none : Py (Option String))
                           | .str s => .ok (some s)
                           | _ => .error (.valueError "validation error: intensity")) with
                    | .error e => .error e
                    | .ok intenv =>
                      .ok (some ⟨"Active Recovery",
                        .activeRecovery ⟨"Active Recovery", none, some acts, duv, intenv⟩⟩)
              | .null =>
                .ok (some ⟨"Active Recovery",
                  .activeRecovery ⟨"Active Recovery", none, none,
                    some "30-60 minutes", some "Low"⟩⟩)
              | _ => .error (.valueError "validation error: activities")
      else .ok none
where
  optStrOf : Json → Py (Option String)
    | .null => .ok none
    | .str s => .ok (some s)
    | _ => .error (.valueError "validation error: str field")

/-- The session loop: append recognized sessions, skip unrecognized ones. -/
def parse_sessions : List Json → Py (List Session)
  | [] => .ok []
  | sd :: rest =>
    match sessionOfItem sd with
    | .error e => .error e
    | .ok os =>
      match parse_sessions rest with
      | .error e => .error e
      | .ok ss =>
        match os with
        | some s => .ok (s :: ss)
        | none => .ok ss

def parse_day (day_data : Json) : Py Day :=
  match pyGet day_data "sessions" (.arr []) with
  | .error e => .error e
  | .ok sj =>
    match pyIter sj with
    | .error e => .error e
    | .ok items =>
      match parse_sessions items with
      | .error e => .error e
      | .ok sessions => .ok ⟨sessions⟩

def parse_week (week_data : Json) : Py Week :=
  match pyGet week_data "days" (.arr []) with
  | .error e => .error e
  | .ok dj =>
    match pyIter dj with
    | .error e => .error e
    | .ok items =>
      match pyMapM parse_day items with
      | .error e => .error e
      | .ok days => .ok ⟨days⟩

def parse_plan_json (response_data : Json) : Py WorkoutPlan :=
  match pyGet response_data "weeks" (.arr []) with
  | .error e => .error e
  | .ok wj =>
    match pyIter wj with
    | .error e => .error e
    | .ok items =>
      match pyMapM parse_week items with
      | .error e => .error e
      | .ok weeks =>
        match pySubscript response_data "name" with
        | .error e => .error e
        | .ok (.str n) => .ok ⟨n, weeks⟩
        | .ok _ => .error (.valueError "validation error: name")

/-- `parse_openai_response` (src/backend/api/workouts.py). -/
def parse_openai_response (raw_json : String) : Py WorkoutPlan :=
  match json_loads raw_json with
  | .error e => .error (wrapParseError e)
  | .ok j =>
    match parse_plan_json j with
    | .error e => .error (wrapParseError e)
    | .ok p => .ok p

end ApiWorkouts

example : ApiWorkouts.parse_openai_response
    "\x7b\"name\": \"P\", \"weeks\": [\x7b\"days\": [\x7b\"sessions\": [\x7b\"type\": \"Unknown\", \"details\": \x7b\x7d\x7d]\x7d]\x7d]\x7d"
    = .ok ⟨"P", [⟨[⟨[]⟩]⟩]⟩ := rfl

/-! ## Python string rendering helpers used by the templates and summaries -/

/-- An apostrophe (kept out of string literals). -/
def apos : String := String.singleton (Char.ofNat 39)

/-- `f"{x}"` for an `Optional[int]` value: `str(None)` is `"None"`. -/
def pyOptIntStr : Option Int → String
  | some n => toString n
  | none => "None"

/-- `f"{x}"` for an `Optional[str]` value. -/
def pyOptStrStr : Option String → String
  | some s => s
  | none => "None"

/-- `', '.join(xs) if xs else 'None'` for an `Optional[List[str]]` value
(Python treats both `None` and `[]` as falsy). -/
def pyOptJoinOrNone : Option (List String) → String
  | some (x :: xs) => String.intercalate ", " (x :: xs)
  | _ => "None"

/-- `str` of a Python list of strings, as an f-string renders it. -/
def pyStrList (xs : List String) : String :=
  "[" ++ String.intercalate ", " (xs.map (fun s => apos ++ s ++ apos)) ++ "]"

/-- `user_input.constraints or '75-90 minutes'` rendered by the f-string. -/
def pyConstraintsOr : Option (List String) → String
  | some (x :: xs) => pyStrList (x :: xs)
  | _ => "75-90 minutes"

/-- `s or default` for strings. -/
def pyOrDefault (s d : String) : String := if s = "" then d else s

/-- The directive text of `build_prompt` (src/backend/core/prompt_builder.py),
with the retrieval result interpolated where the f-string embeds
`{similar_workouts}`. -/
def promptTemplate (user_input : WorkoutRequest) (week : Nat)
    (previous_weeks_summary : String) (similar_workouts : String) : String :=
  "\n    You are a highly experienced coach generating structured workout programs. Your task is to create a detailed workout plan in valid JSON format for " ++
    (user_input.name) ++
    ", a " ++
    (toString user_input.age) ++
    "-year-old " ++
    (user_input.experience) ++
    " athlete.\n\n    Athlete Goals:\n    - " ++
    (String.intercalate ", " user_input.goals) ++
    ".\n\n    Reference Workouts (Retrieved from Similar Programs):\n    " ++
    (similar_workouts) ++
    "\n\n    Training Guidelines:\n    - Avoid repeating benchmark CrossFit WODs like \"Grace\" or \"Fran\" multiple times in the program. Create new, custom workouts with unique names.\n    - Incorporate progressive overload for strength training and Olympic lifts (e.g., increasing weight, volume, or intensity weekly).\n    - Include CrossFit WODs with high-skill movements (e.g., handstand push-ups, double-unders, bar muscle-ups).\n    - Ensure a balance between WODs, strength sessions, and recovery days to avoid overtraining or burnout.\n    - Use the following athlete details to customize the plan:\n        - Available equipment: " ++
    (String.intercalate ", " user_input.equipment) ++
    ".\n        - Injuries: " ++
    (pyOptJoinOrNone user_input.injuries) ++
    ".\n        - Avoid these exercises: " ++
    (pyOptJoinOrNone user_input.avoid_exercises) ++
    ".\n        - Sessions per week: " ++
    (pyOptIntStr user_input.sessions_per_week) ++
    ".\n        - Session duration: " ++
    (pyConstraintsOr user_input.constraints) ++
    ".\n\n    Program Continuity:\n    - Reference the following summary of previous weeks" ++ apos ++ " performance and structure to ensure continuity and progression:\n      " ++
    (pyOrDefault previous_weeks_summary "No data from previous weeks provided. Start with baseline workouts for week 1.") ++
    "\n    - Apply progressive overload principles:\n      - Increase load, volume, or intensity for strength training sessions week-to-week.\n      - Introduce progressively harder WODs or higher-skill movements as the athlete progresses.\n\n    Output Requirements:\n    - Return **only** a valid JSON object. Do not include any markdown formatting, such as ```json.\n    - The response must strictly adhere to the following JSON schema:\n\n    Schema:\n    \x7b\n        \"name\": \"Program Name\",\n        \"weeks\": [\n            \x7b\n                \"days\": [\n                    \x7b\n                        \"sessions\": [\n                            \x7b\n                                \"type\": \"WOD\",\n                                \"details\": \x7b\n                                    \"description\": \"Custom WOD description (e.g., Fran: 21-15-9 reps of thrusters and pull-ups)\",\n                                    \"intended_stimulus\": \"Stimulus goal (e.g., Quick and intense, focus on unbroken sets)\",\n                                    \"scaling_options\": \"Scaling guidance (e.g., Reduce weight to maintain intensity)\",\n                                    \"movements\": [\n                                        \x7b\n                                            \"description\": \"Thrusters (95/65 lbs)\",\n                                            \"resources\": \"https://link.to/thrusters\"\n                                        \x7d,\n                                        \x7b\n                                            \"description\": \"Pull-ups\",\n                                            \"resources\": \"https://link.to/pullups\"\n                                        \x7d\n                                    ]\n                                \x7d\n                            \x7d,\n                            \x7b\n                                \"type\": \"Strength\",\n                                \"details\": \x7b\n                                    \"description\": \"Strength session description (e.g., Back Squat 5x5 at 80% of 1RM)\",\n                                    \"sets\": 5,\n                                    \"reps\": 3,\n                                    \"intensity\": \"Intensity details (e.g., 80% of 1RM)\",\n                                    \"rest\": \"Rest period between sets (e.g., 2-3 minutes)\",\n                                    \"notes\": \"Execution notes (e.g., Focus on depth and explosive drive)\"\n                                \x7d\n                            \x7d,\n                            \x7b\n                                \"type\": \"Rest Day\",\n                                \"details\": \x7b\n                                    \"notes\": \"Rest guidance (e.g., Take the day off to recover.)\",\n                                    \"description\": \"Rest day notes (e.g., An apple a day keeps the doctor away! Eat well)\"\n                                \x7d\n                            \x7d,\n                            \x7b\n                                \"type\": \"Active Recovery\",\n                                \"details\": \x7b\n                                    \"activities\": [\"Mobility work\", \"Foam rolling\"],\n                                    \"duration\": \"Duration of recovery session (e.g., 30-60 minutes)\",\n                                    \"intensity\": \"Recovery intensity (e.g., Low)\",\n                                    \"description\": \"Description of recovery focus (e.g., Take a stroll in the park)\"\n                                \x7d\n                            \x7d\n                        ]\n                    \x7d\n                ]\n            \x7d\n        ]\n    \x7d\n\n    Generate a workout plan for week " ++
    (toString week) ++
    ". Ensure the output is valid JSON, adheres to the schema, and reflects the athlete" ++ apos ++ "s goals and training guidelines. Do not include any extraneous text or formatting outside of the JSON object.\n    "


/-- The directive text of the API module's own `build_prompt`
(src/backend/api/workouts.py), which performs no retrieval. -/
def apiPromptTemplate (user_input : WorkoutRequest) (week : Nat)
    (previous_weeks_summary : String) : String :=
  "\n    You are a highly experienced coach generating structured workout programs. Your task is to create a detailed workout plan in valid JSON format for " ++
    (user_input.name) ++
    ", a " ++
    (toString user_input.age) ++
    "-year-old " ++
    (user_input.experience) ++
    " athlete.\n\n    Athlete Goals:\n    - " ++
    (String.intercalate ", " user_input.goals) ++
    ".\n\n    Training Guidelines:\n    - Avoid repeating benchmark CrossFit WODs like \"Grace\" or \"Fran\" multiple times in the program. Create new, custom workouts with unique names.\n    - Incorporate progressive overload for strength training and Olympic lifts (e.g., increasing weight, volume, or intensity weekly).\n    - Include CrossFit WODs with high-skill movements (e.g., handstand push-ups, double-unders, bar muscle-ups).\n    - Ensure a balance between WODs, strength sessions, and recovery days to avoid overtraining or burnout.\n    - Use the following athlete details to customize the plan:\n        - Available equipment: " ++
    (String.intercalate ", " user_input.equipment) ++
    ".\n        - Injuries: " ++
    (pyOptJoinOrNone user_input.injuries) ++
    ".\n        - Avoid these exercises: " ++
    (pyOptJoinOrNone user_input.avoid_exercises) ++
    ".\n        - Sessions per week: " ++
    (pyOptIntStr user_input.sessions_per_week) ++
    ".\n        - Session duration: " ++
    (pyConstraintsOr user_input.constraints) ++
    ".\n\n    Program Continuity:\n    - Reference the following summary of previous weeks" ++ apos ++ " performance and structure to ensure continuity and progression:\n      " ++
    (pyOrDefault previous_weeks_summary "No data from previous weeks provided. Start with baseline workouts for week 1.") ++
    "\n    - Apply progressive overload principles:\n      - Increase load, volume, or intensity for strength training sessions week-to-week.\n      - Introduce progressively harder WODs or higher-skill movements as the athlete progresses.\n\n    Output Requirements:\n    - Return **only** a valid JSON object. Do not include any markdown formatting, such as ```json.\n    - The response must strictly adhere to the following JSON schema:\n\n    Schema:\n    \x7b\n        \"name\": \"Program Name\",\n        \"weeks\": [\n            \x7b\n                \"days\": [\n                    \x7b\n                        \"sessions\": [\n                            \x7b\n                                \"type\": \"WOD\",\n                                \"details\": \x7b\n                                    \"description\": \"Custom WOD description (e.g., Fran: 21-15-9 reps of thrusters and pull-ups)\",\n                                    \"intended_stimulus\": \"Stimulus goal (e.g., Quick and intense, focus on unbroken sets)\",\n                                    \"scaling_options\": \"Scaling guidance (e.g., Reduce weight to maintain intensity)\",\n                                    \"movements\": [\n                                        \x7b\n                                            \"description\": \"Thrusters (95/65 lbs)\",\n                                            \"resources\": \"https://link.to/thrusters\"\n                                        \x7d,\n                                        \x7b\n                                            \"description\": \"Pull-ups\",\n                                            \"resources\": \"https://link.to/pullups\"\n                                        \x7d\n                                    ]\n                                \x7d\n                            \x7d,\n                            \x7b\n                                \"type\": \"Strength\",\n                                \"details\": \x7b\n                                    \"description\": \"Strength session description (e.g., Back Squat 5x5 at 80% of 1RM)\",\n                                    \"sets\": 5,\n                                    \"reps\": 3,\n                                    \"intensity\": \"Intensity details (e.g., 80% of 1RM)\",\n                                    \"rest\": \"Rest period between sets (e.g., 2-3 minutes)\",\n                                    \"notes\": \"Execution notes (e.g., Focus on depth and explosive drive)\"\n                                \x7d\n                            \x7d,\n                            \x7b\n                                \"type\": \"Rest Day\",\n                                \"details\": \x7b\n                                    \"notes\": \"Rest guidance (e.g., Take the day off to recover.)\",\n                                    \"description\": \"Rest day notes (e.g., An apple a day keeps the doctor away! Eat well)\"\n                                \x7d\n                            \x7d,\n                            \x7b\n                                \"type\": \"Active Recovery\",\n                                \"details\": \x7b\n                                    \"activities\": [\"Mobility work\", \"Foam rolling\"],\n                                    \"duration\": \"Duration of recovery session (e.g., 30-60 minutes)\",\n                                    \"intensity\": \"Recovery intensity (e.g., Low)\",\n                                    \"description\": \"Description of recovery focus (e.g., Take a stroll in the park)\"\n                                \x7d\n                            \x7d\n                        ]\n                    \x7d\n                ]\n            \x7d\n        ]\n    \x7d\n\n    Generate a workout plan for week " ++
    (toString week) ++
    ". Ensure the output is valid JSON, adheres to the schema, and reflects the athlete" ++ apos ++ "s goals and training guidelines. Do not include any extraneous text or formatting outside of the JSON object.\n    "

/-! ## Cache file serialization (src/backend/core/cache.py)

`json.dump({"openai_response": data}, file, indent=4)` writes a one-member
envelope object. -/

/-- The character escaping `json.dump` applies inside a JSON string (the
escapes needed for the strings this system stores). -/
def escChars : List Char → List Char
  | [] => []
  | c :: cs =>
    if c = '"' then '\\' :: '"' :: escChars cs
    else if c = '\\' then '\\' :: '\\' :: escChars cs
    else if c = '\n' then '\\' :: 'n' :: escChars cs
    else if c = '\t' then '\\' :: 't' :: escChars cs
    else if c = '\r' then '\\' :: 'r' :: escChars cs
    else c :: escChars cs

def quoteJson (s : String) : String := "\"" ++ String.mk (escChars s.data) ++ "\""

/-- The exact file text `json.dump({"openai_response": data}, file, indent=4)`
produces for the one-member envelope. -/
def saveContent (data : String) : String :=
  "\x7b\n    \"openai_response\": " ++ quoteJson data ++ "\n\x7d"

/-! ## Pipeline state and external environment -/

/-- The mutable world the pipeline touches: the cache directory's files, the
wall clock, the module-global `_last_request_time`, and (as observation) the
times at which upstream generator calls were issued, in order. -/
structure PipeState where
  files : List (String × String)
  now : Nat
  last_request_time : Nat
  callTimes : List Nat

/-- The external collaborators: the similarity search (queried by
`build_prompt` and rendered into the directive) and the generator service
(`gen i` is the response content of the `i`-th upstream call in the process,
`dur i` the wall-clock time that call takes). -/
structure Env where
  retrieve : String → Int → Py String
  gen : Nat → Py String
  dur : Nat → Nat

def lookupFile : List (String × String) → String → Option String
  | [], _ => none
  | (k, v) :: rest, key => if k = key then some v else lookupFile rest key

def setFile : List (String × String) → String → String → List (String × String)
  | [], key, v => [(key, v)]
  | (k, v') :: rest, key, v =>
    if k = key then (key, v) :: rest else (k, v') :: setFile rest key v

def CACHE_DIR : String := "workout_cache"

/-- `os.path.join(CACHE_DIR, f"week_{week}.json")`. -/
def cacheFileName (week : Nat) : String :=
  CACHE_DIR ++ "/week_" ++ toString week ++ ".json"

/-- `save_to_cache(data, filename)`: write the envelope to the file. -/
def save_to_cache (data : String) (filename : String) (st : PipeState) : PipeState :=
  { st with files := setFile st.files filename (saveContent data) }

/-- `load_from_cache(filename)`: if the file exists, `json.load` it (raising
`json.JSONDecodeError` on invalid JSON, propagated uncaught) and return
`.get("openai_response")` (raising `AttributeError` when the decoded value
is not a dict). -/
def load_from_cache (filename : String) (st : PipeState) : Py (Option Json) :=
  match lookupFile st.files filename with
  | none => .ok none
  | some content =>
    match json_loads content with
    | .error e => .error e
    | .ok (.obj kvs) => .ok (lookupAssoc kvs "openai_response")
    | .ok _ => .error (.attributeError "object has no attribute get: openai_response")

/-! ## Rate-limited generator call (src/backend/core/openai_client.py) -/

def MIN_TIME_BETWEEN_REQUESTS : Nat := 20

/-- `call_openai_api`: if less than the minimum interval has elapsed since
the shared `_last_request_time`, sleep until it has; then issue the upstream
call; on success, set `_last_request_time` to the completion time and return
the stripped content.  On upstream failure the exception propagates and the
timestamp is not updated.  The issue time of every upstream call is recorded
in `callTimes`. -/
def call_openai_api (env : Env) (prompt : String) (st : PipeState) :
    Py String × PipeState :=
  let _ := prompt
  let elapsed := st.now - st.last_request_time
  let st1 :=
    if elapsed < MIN_TIME_BETWEEN_REQUESTS then
      { st with now := st.now + (MIN_TIME_BETWEEN_REQUESTS - elapsed) }
    else st
  let t := st1.now
  let i := st1.callTimes.length
  match env.gen i with
  | .error e =>
    (.error e, { st1 with now := st1.now + env.dur i, callTimes := st1.callTimes ++ [t] })
  | .ok content =>
    let st2 := { st1 with now := st1.now + env.dur i, callTimes := st1.callTimes ++ [t] }
    (.ok (pyStrip content), { st2 with last_request_time := st2.now })

/-! ## Prompt composition (src/backend/core/prompt_builder.py) -/

/-- `build_prompt`: retrieve similar workouts for the joined goals with
`top_k=5`, then interpolate the result into the directive.  There is no
error handling around the retrieval call: a retrieval failure propagates. -/
def build_prompt (env : Env) (user_input : WorkoutRequest) (week : Nat)
    (previous_weeks_summary : String) : Py String :=
  match env.retrieve (String.intercalate ", " user_input.goals) 5 with
  | .error e => .error e
  | .ok similar_workouts =>
    .ok (promptTemplate user_input week previous_weeks_summary similar_workouts)

/-! ## Week summarization (src/backend/core/summary_genertor.py) -/

/-- The string one session contributes to its day's summary line.  Joining a
`None` activity list raises `TypeError`, exactly as
`', '.join(recovery_details.activities)` does. -/
def summarize_session (session : Session) : Py String :=
  if session.type = "WOD" then
    match session.details with
    | .wod w =>
      .ok (" WOD - " ++ w.description ++ " | Stimulus: " ++ w.intended_stimulus ++ ";")
    | _ => .error (.attributeError "description")
  else if session.type = "Strength" then
    match session.details with
    | .strength s =>
      .ok (" Strength - " ++ s.description ++ ", " ++ pyOptIntStr s.sets ++ "x" ++
        pyOptIntStr s.reps ++ " at " ++ pyOptStrStr s.intensity ++ " | Notes: " ++
        pyOptStrStr s.notes ++ ";")
    | _ => .error (.attributeError "description")
  else if session.type = "Rest Day" then .ok " Rest Day - Recovery & Rest."
  else if session.type = "Active Recovery" then
    match session.details with
    | .activeRecovery a =>
      match a.activities with
      | none => .error (.typeError "can only join an iterable")
      | some acts =>
        .ok (" Active Recovery - " ++ String.intercalate ", " acts ++ ", Duration: " ++
          pyOptStrStr a.duration ++ ";")
    | _ => .error (.attributeError "activities")
  else .ok ""

/-- The summary lines for the days, 1-indexed. -/
def summarize_days (idx : Nat) : List Day → Py (List String)
  | [] => .ok []
  | d :: rest =>
    match pyMapM summarize_session d.sessions with
    | .error e => .error e
    | .ok pieces =>
      match summarize_days (idx + 1) rest with
      | .error e => .error e
      | .ok ls => .ok (("Day " ++ toString idx ++ ":" ++ String.join pieces) :: ls)

/-- `summarize_week_for_next_prompt`: `" ".join` of the day summary lines. -/
def summarize_week_for_next_prompt (week : Week) : Py String :=
  match summarize_days 1 week.days with
  | .error e => .error e
  | .ok ls => .ok (String.intercalate " " ls)

/-! ## Weekly generation and the plan loop (src/backend/services/generate_workout.py) -/

/-- `parse_openai_response(cached_response)` where the cached value came out
of the envelope: `json.loads` raises `TypeError` (uncaught by the parser's
`except` clause) when the argument is not a string. -/
def parse_json_arg (j : Json) : Py WorkoutPlan :=
  match j with
  | .str s => parse_openai_response s
  | _ => .error (.typeError "the JSON object must be str, bytes or bytearray")

/-- `.weeks[0]` on a parse result: `IndexError` on an empty week list. -/
def weeksFirst (r : Py WorkoutPlan) : Py Week :=
  match r with
  | .error e => .error e
  | .ok p =>
    match p.weeks with
    | [] => .error .indexError
    | w :: _ => .ok w

/-- The cache-miss path of `generate_weekly_workout`: compose the prompt
(retrieval included), call the generator, save the raw text to the cache,
then parse it and take `.weeks[0]`. -/
def generate_weekly_workout_miss (env : Env) (user_input : WorkoutRequest)
    (week : Nat) (previous_summary : String) (st : PipeState) : Py Week × PipeState :=
  match build_prompt env user_input week previous_summary with
  | .error e => (.error e, st)
  | .ok prompt =>
    match call_openai_api env prompt st with
    | (.error e, st1) => (.error e, st1)
    | (.ok workout_text, st1) =>
      let st2 := save_to_cache workout_text (cacheFileName week) st1
      (weeksFirst (parse_openai_response workout_text), st2)

/-- `generate_weekly_workout` (src/backend/services/generate_workout.py):
use the cached raw response when the file exists and holds a truthy value —
with no error handling around parsing it — otherwise fall through to the
generator. -/
def generate_weekly_workout (env : Env) (user_input : WorkoutRequest)
    (week : Nat) (previous_summary : String) (st : PipeState) : Py Week × PipeState :=
  match load_from_cache (cacheFileName week) st with
  | .error e => (.error e, st)
  | .ok (some cached) =>
    if pyTruthy cached then (weeksFirst (parse_json_arg cached), st)
    else generate_weekly_workout_miss env user_input week previous_summary st
  | .ok none => generate_weekly_workout_miss env user_input week previous_summary st

/-- The `for week in range(1, duration + 1)` loop of
`generate_workout_with_ai`, by remaining count. -/
def build_weeks (env : Env) (user_input : WorkoutRequest) :
    Nat → Nat → String → PipeState → Py (List Week) × PipeState
  | 0, _, _, st => (.ok [], st)
  | n + 1, week, previous_summary, st =>
    match generate_weekly_workout env user_input week previous_summary st with
    | (.error e, st1) => (.error e, st1)
    | (.ok wk, st1) =>
      match summarize_week_for_next_prompt wk with
      | .error e => (.error e, st1)
      | .ok s' =>
        match build_weeks env user_input n (week + 1) s' st1 with
        | (.error e, st2) => (.error e, st2)
        | (.ok ws, st2) => (.ok (wk :: ws), st2)

/-- `generate_workout_with_ai`: generate `duration` weeks in order, threading
each week's summary into the next prompt, and name the plan
`f"{user_input.name}'s Plan"`. -/
def generate_workout_with_ai (env : Env) (user_input : WorkoutRequest)
    (st : PipeState) : Py WorkoutPlan × PipeState :=
  match build_weeks env user_input user_input.duration 1 "" st with
  | (.error e, st1) => (.error e, st1)
  | (.ok ws, st1) => (.ok ⟨user_input.name ++ apos ++ "s Plan", ws⟩, st1)

/-! ## The API module's own weekly generation (src/backend/api/workouts.py) -/

namespace ApiWorkouts

/-- `except ValueError` catches `ValueError` and its subclass
`json.JSONDecodeError` (but not `KeyError`, `TypeError` or `IndexError`). -/
def isValueErrorClass : PyErr → Bool
  | .valueError _ => true
  | .jsonDecodeError _ => true
  | _ => false

/-- `parse_openai_response(cached_response)` for the API-module parser. -/
def parse_json_arg (j : Json) : Py WorkoutPlan :=
  match j with
  | .str s => ApiWorkouts.parse_openai_response s
  | _ => .error (.typeError "the JSON object must be str, bytes or bytearray")

/-- The cache-miss path of the API module's `generate_weekly_workout`:
throttle, compose the (retrieval-free) prompt, call the generator inside
`try/except openai.OpenAIError` (wrapped into an `HTTPException`), update
`_last_request_time`, save the stripped text, then parse it with any parse
or indexing failure re-raised as `ValueError`. -/
def generate_weekly_workout_miss (env : Env) (user_input : WorkoutRequest)
    (week : Nat) (previous_weeks_summary : String) (st : PipeState) :
    Py Week × PipeState :=
  let elapsed := st.now - st.last_request_time
  let st1 :=
    if elapsed < MIN_TIME_BETWEEN_REQUESTS then
      { st with now := st.now + (MIN_TIME_BETWEEN_REQUESTS - elapsed) }
    else st
  let _ := apiPromptTemplate user_input week previous_weeks_summary
  let t := st1.now
  let i := st1.callTimes.length
  match env.gen i with
  | .error (.openAIError m) =>
    (.error (.httpException 500 ("OpenAI API error: " ++ m)),
     { st1 with now := st1.now + env.dur i, callTimes := st1.callTimes ++ [t] })
  | .error e =>
    (.error e, { st1 with now := st1.now + env.dur i, callTimes := st1.callTimes ++ [t] })
  | .ok content =>
    let st2 := { st1 with now := st1.now + env.dur i, callTimes := st1.callTimes ++ [t] }
    let st3 := { st2 with last_request_time := st2.now }
    let workout_text := pyStrip content
    let st4 := save_to_cache workout_text (cacheFileName week) st3
    (match weeksFirst (ApiWorkouts.parse_openai_response workout_text) with
     | .ok wk => .ok wk
     | .error e => .error (.valueError ("Failed to parse OpenAI response: " ++ pyErrStr e)),
     st4)

/-- The API module's `generate_weekly_workout`: on a cache hit, parse the
cached value inside `try/except ValueError`; a caught `ValueError` falls
through to regeneration, any other exception (including the
`json.JSONDecodeError` raised by `load_from_cache` itself, which occurs
before the `try` block) propagates. -/
def generate_weekly_workout (env : Env) (user_input : WorkoutRequest)
    (week : Nat) (previous_weeks_summary : String) (st : PipeState) :
    Py Week × PipeState :=
  match load_from_cache (cacheFileName week) st with
  | .error e => (.error e, st)
  | .ok (some cached) =>
    if pyTruthy cached then
      match weeksFirst (parse_json_arg cached) with
      | .ok wk => (.ok wk, st)
      | .error e =>
        if isValueErrorClass e then
          generate_weekly_workout_miss env user_input week previous_weeks_summary st
        else (.error e, st)
    else generate_weekly_workout_miss env user_input week previous_weeks_summary st
  | .ok none => generate_weekly_workout_miss env user_input week previous_weeks_summary st

end ApiWorkouts

/-! ## Similarity search (src/backend/services/search.py)

The FAISS index is built from the same workout list as the metadata file
(src/backend/core/create_embeddings.py), so the index holds
`metadata.length` entries.  Per the FAISS contract, `index.search(q, k)`
returns `k` slots: the first `min(k, n)` hold the ids of the true nearest
entries and the remaining slots are padded with `-1`. -/

structure WorkoutMeta where
  title : String
  description : String
  score_type : String
  workout_type : String
  track : String
  created_at : String
deriving Repr, DecidableEq

/-- Substring test (Python's `in` operator on strings). -/
def strContains (hay pat : String) : Bool :=
  go hay.data
where
  go : List Char → Bool
    | [] => pat.data.isPrefixOf []
    | c :: cs => pat.data.isPrefixOf (c :: cs) || go cs

def pyLower (s : String) : String := ⟨s.data.map Char.toLower⟩

/-- `get_workout_category` (src/backend/services/workout_category.py). -/
def get_workout_category (workout : WorkoutMeta) : String :=
  let title := pyStrip (pyLower workout.title)
  let score_type := pyLower (pyStrip workout.score_type)
  if strContains title "pre-wod" || strContains title "warmup" ||
     strContains title "mobility" then "warmup"
  else if strContains title "cooldown" || strContains title "recovery" ||
     strContains title "stretch" then "cooldown"
  else if score_type ≠ "" then "workout"
  else "other"

/-- The id slots `index.search` returns over an index of `n` entries:
`rank i` for the first `min(k, n)` slots, `-1` padding afterwards.  The
faiss Python wrapper asserts `k > 0` (and `IndexFlat::search` throws on
`k <= 0`), so a non-positive `k` raises instead of searching. -/
def faiss_search_ids (n : Nat) (rank : Nat → Nat) (k : Int) : Py (List Int) :=
  if k ≤ 0 then .error (.assertionError "k > 0")
  else .ok ((List.range k.toNat).map (fun i => if i < n then (rank i : Int) else -1))

/-- One ranked result entry as the endpoint builds it. -/
structure SearchResult where
  rank : Nat
  title : String
  description : String
  score_type : String
  workout_type : String
  track : String
  created_at : String
  distance : Int
deriving Repr, DecidableEq

/-- The three buckets `search_similar_workouts` returns. -/
structure SearchBuckets where
  results : List SearchResult
  warmups : List SearchResult
  cooldowns : List SearchResult
deriving Repr, DecidableEq

/-- Python `xs[idx]` with an `int` index (negative indices wrap from the
end; out of range raises `IndexError`). -/
def pyListGet (xs : List WorkoutMeta) (i : Int) : Py WorkoutMeta :=
  let eff := if i < 0 then i + xs.length else i
  if h : 0 ≤ eff ∧ eff.toNat < xs.length then .ok (xs.get ⟨eff.toNat, h.2⟩)
  else .error .indexError

/-- The enumerated loop body of `search_similar_workouts`: for each slot
`idx` (position `i`), include the entry when `idx < len(workout_metadata)`
— a guard the `-1` padding also passes, making `workout_metadata[idx]` read
the **last** entry. -/
def searchLoop (metadata : List WorkoutMeta) (dist : Nat → Int)
    (include_warmups include_cooldowns : Bool) :
    Nat → List Int → SearchBuckets → Py SearchBuckets
  | _, [], acc => .ok acc
  | i, idx :: rest, acc =>
    if idx < (metadata.length : Int) then
      match pyListGet metadata idx with
      | .error e => .error e
      | .ok workout =>
        let category := get_workout_category workout
        let result : SearchResult :=
          ⟨i + 1, workout.title, workout.description, workout.score_type,
           workout.workout_type, workout.track, workout.created_at, dist i⟩
        let acc' :=
          if category = "warmup" && include_warmups then
            { acc with warmups := acc.warmups ++ [result] }
          else if category = "quality" && include_cooldowns then
            { acc with cooldowns := acc.cooldowns ++ [result] }
          else { acc with results := acc.results ++ [result] }
        searchLoop metadata dist include_warmups include_cooldowns (i + 1) rest acc'
    else searchLoop metadata dist include_warmups include_cooldowns (i + 1) rest acc

/-- `search_similar_workouts` (src/backend/services/search.py): embed the
query (opaque here), run the FAISS search with `top_k` slots, and bucket
the guarded results.  `top_k` is an `int`; the faiss call raises on a
non-positive `top_k` and that error propagates (the function has no error
handling). -/
def search_similar_workouts (metadata : List WorkoutMeta) (rank : Nat → Nat)
    (dist : Nat → Int) (query : String) (top_k : Int)
    (include_warmups : Bool := true) (include_cooldowns : Bool := false) :
    Py SearchBuckets :=
  let _ := query
  match faiss_search_ids metadata.length rank top_k with
  | .error e => .error e
  | .ok indices =>
    searchLoop metadata dist include_warmups include_cooldowns 0 indices ⟨[], [], []⟩

/-- Total number of items returned across the three buckets. -/
def bucketsCount (b : SearchBuckets) : Nat :=
  b.results.length + b.warmups.length + b.cooldowns.length

/-! ## Throttle trace (for the rate-limiting property) -/

/-- Run a sequence of generator invocations through `call_openai_api`,
letting `idle` wall-clock time pass before each one. -/
def runThrottle (env : Env) : List Nat → PipeState → PipeState
  | [], st => st
  | idle :: rest, st =>
    let st1 := { st with now := st.now + idle }
    runThrottle env rest (call_openai_api env "" st1).2

/-- Adjacent elements are at least `g` apart. -/
def minGapB (g : Nat) : List Nat → Bool
  | a :: b :: rest => decide (a + g ≤ b) && minGapB g (b :: rest)
  | _ => true

/-! ## Claim C1 -/

/-- C1: any raw payload whose decoded tree contains — along the
`weeks[].days[].sessions[]` path the parser walks — a session object whose
`type` tag is none of the four recognized variants makes
`parse_openai_response` (the strict parser built on `Session.from_dict` /
`SessionDetails.from_dict`) fail with an error; it never returns a plan with
that session silently dropped. -/
theorem parse_unknown_session_kind_errors
    (raw : String) (kvs : List (String × Json)) (ws : List Json)
    (wkvs : List (String × Json)) (ds : List Json)
    (dkvs : List (String × Json)) (ss : List Json)
    (skvs : List (String × Json)) (t : String)
    (hload : json_loads raw = .ok (.obj kvs))
    (hweeks : lookupAssoc kvs "weeks" = some (.arr ws))
    (hw : Json.obj wkvs ∈ ws)
    (hdays : lookupAssoc wkvs "days" = some (.arr ds))
    (hd : Json.obj dkvs ∈ ds)
    (hsess : lookupAssoc dkvs "sessions" = some (.arr ss))
    (hs : Json.obj skvs ∈ ss)
    (htype : lookupAssoc skvs "type" = some (.str t))
    (ht1 : t ≠ "WOD") (ht2 : t ≠ "Strength") (ht3 : t ≠ "Rest Day")
    (ht4 : t ≠ "Active Recovery") :
    ∃ e, parse_openai_response raw = .error e := by
  have hplan : ∀ p, parse_plan_json (.obj kvs) ≠ .ok p := by
    intro p hok
    rw [parse_plan_json] at hok
    simp only [pyGet, hweeks, pyIter] at hok
    cases hmap : pyMapM parse_week ws with
    | error e => rw [hmap] at hok; simp at hok
    | ok weeks =>
      obtain ⟨wv, hwv⟩ := pyMapM_ok_of_mem hmap hw
      rw [parse_week] at hwv
      simp only [pyGet, hdays, pyIter] at hwv
      cases hmap2 : pyMapM parse_day ds with
      | error e => rw [hmap2] at hwv; simp at hwv
      | ok days =>
        obtain ⟨dv, hdv⟩ := pyMapM_ok_of_mem hmap2 hd
        rw [parse_day] at hdv
        simp only [pyGet, hsess, pyIter] at hdv
        cases hmap3 : pyMapM Session.from_dict ss with
        | error e => rw [hmap3] at hdv; simp at hdv
        | ok sessions =>
          obtain ⟨sv, hsv⟩ := pyMapM_ok_of_mem hmap3 hs
          rw [Session.from_dict] at hsv
          simp only [pySubscript, htype] at hsv
          cases hdet : lookupAssoc skvs "details" with
          | none => rw [hdet] at hsv; simp at hsv
          | some dt =>
            rw [hdet] at hsv
            simp [SessionDetails.from_dict.eq_def, ht1, ht2, ht3, ht4] at hsv
  cases hres : parse_plan_json (.obj kvs) with
  | error e =>
    exact ⟨wrapParseError e, by simp [parse_openai_response, hload, hres]⟩
  | ok p => exact absurd hres (hplan p)

def c1SessObj : Json := .obj [("type", .str "Unknown"), ("details", .obj [])]

def c1DayObj : Json := .obj [("sessions", .arr [c1SessObj])]

def c1WeekObj : Json := .obj [("days", .arr [c1DayObj])]

def c1Raw : String :=
  "\x7b\"name\": \"P\", \"weeks\": [\x7b\"days\": [\x7b\"sessions\": [\x7b\"type\": \"Unknown\", \"details\": \x7b\x7d\x7d]\x7d]\x7d]\x7d"

/-- Witness for C1 at a concrete one-session payload with `type = "Unknown"`. -/
theorem parse_unknown_session_kind_errors_witness :
    ∃ e, parse_openai_response c1Raw = .error e :=
  parse_unknown_session_kind_errors c1Raw
    [("name", .str "P"), ("weeks", .arr [c1WeekObj])] [c1WeekObj]
    [("days", .arr [c1DayObj])] [c1DayObj]
    [("sessions", .arr [c1SessObj])] [c1SessObj]
    [("type", .str "Unknown"), ("details", .obj [])] "Unknown"
    rfl rfl (List.Mem.head _) rfl (List.Mem.head _) rfl (List.Mem.head _) rfl
    (by decide) (by decide) (by decide) (by decide)

/-! ## Claim C4 -/

def backtickChar : Char := Char.ofNat 96

/-- A value whose first non-whitespace character is a backtick matches no
JSON production: `json.loads` has no markdown-fence handling. -/
theorem parseStep_value_backtick (fuel : Nat) (cs rest : List Char)
    (h : skipWs cs = backtickChar :: rest) :
    parseStep fuel .value cs = none := by
  cases fuel with
  | zero => rfl
  | succ f =>
    simp only [parseStep, h]
    rw [if_neg (by decide : ¬ (backtickChar = lbraceChar)),
        if_neg (by decide : ¬ (backtickChar = '[')),
        if_neg (by decide : ¬ (backtickChar = '"')),
        if_neg (by decide : ¬ (backtickChar = 't')),
        if_neg (by decide : ¬ (backtickChar = 'f')),
        if_neg (by decide : ¬ (backtickChar = 'n'))]
    simp only [parseNumber]
    rw [if_neg (by decide : ¬ (backtickChar = '-')),
        if_neg (by decide : ¬ (backtickChar.isDigit = true))]

/-- C4 (amended): `parse_openai_response` performs no markdown-fence
stripping.  Every payload whose first non-whitespace character is a backtick
— in particular any ```-fenced payload — fails with the wrapped
`ValueError` from the JSON decode step, regardless of what the fence
contains. -/
theorem parse_openai_response_fenced_fails (raw : String) (rest : List Char)
    (h : skipWs raw.data = backtickChar :: rest) :
    parse_openai_response raw =
      .error (.valueError "Failed to parse OpenAI response: Expecting value") := by
  have hnone : ∀ fuel, parseStep fuel .value raw.data = none :=
    fun fuel => parseStep_value_backtick fuel raw.data rest h
  have hj : json_loads raw = .error (.jsonDecodeError "Expecting value") := by
    simp [json_loads, hnone]
  simp [parse_openai_response, hj, wrapParseError, caughtByParser, pyErrStr]

def c4Inner : String := "\x7b\"name\": \"P\", \"weeks\": []\x7d"

def c4Fenced : String := "```json\n" ++ c4Inner ++ "\n```"

/-- Counterexample for C4 as stated: the fenced wrapping of a payload that
parses on its own is not stripped — the parser fails on it instead of
returning the same plan as for the unwrapped payload. -/
theorem parse_openai_response_fenced_counterexample :
    parse_openai_response c4Fenced =
      .error (.valueError "Failed to parse OpenAI response: Expecting value") ∧
    parse_openai_response c4Inner = .ok ⟨"P", []⟩ :=
  ⟨rfl, rfl⟩

/-- Witness for the amended C4 at the concrete fenced payload. -/
theorem parse_openai_response_fenced_fails_witness :
    parse_openai_response c4Fenced =
      .error (.valueError "Failed to parse OpenAI response: Expecting value") :=
  parse_openai_response_fenced_fails c4Fenced _ rfl

/-! ## Claim C7 -/

def c7Req : WorkoutRequest :=
  ⟨"Sam", 30, "intermediate", ["strength"], ["barbell"], none, none, some 6,
   none, none, 2, none⟩

def c7Env : Env :=
  ⟨fun _ _ => .error (.valueError "boom"), fun _ => .ok "", fun _ => 0⟩

/-- Counterexample for C7 as stated: when the similarity search fails,
`build_prompt` does not degrade to composing without reference text — the
retrieval error aborts composition. -/
theorem build_prompt_aborts_on_retrieval_failure :
    build_prompt c7Env c7Req 1 "" = .error (.valueError "boom") := rfl

/-- C7 (amended): `build_prompt` has no error handling around the retrieval
call: a retrieval failure propagates out of prompt composition, and only
when retrieval succeeds is a directive returned (with the retrieval result
interpolated). -/
theorem build_prompt_retrieval_characterization (env : Env)
    (u : WorkoutRequest) (week : Nat) (summary : String) :
    (∀ e, env.retrieve (String.intercalate ", " u.goals) 5 = .error e →
       build_prompt env u week summary = .error e) ∧
    (∀ r, env.retrieve (String.intercalate ", " u.goals) 5 = .ok r →
       build_prompt env u week summary = .ok (promptTemplate u week summary r)) := by
  constructor <;> intro x hx <;> simp [build_prompt, hx]

def c7EnvDown : Env :=
  ⟨fun _ _ => .error (.typeError "sim down"), fun _ => .ok "", fun _ => 0⟩

/-- Witness for the amended C7 at a concrete failing retrieval environment. -/
theorem build_prompt_retrieval_characterization_witness :
    build_prompt c7EnvDown c7Req 1 "" = .error (.typeError "sim down") :=
  (build_prompt_retrieval_characterization c7EnvDown c7Req 1 "").1 _ rfl

/-! ## Claim C8 -/

theorem minGapB_append (g : Nat) (xs : List Nat) (t : Nat)
    (h : minGapB g xs = true)
    (hlast : ∀ x, xs.getLast? = some x → x + g ≤ t) :
    minGapB g (xs ++ [t]) = true := by
  induction xs with
  | nil => simp [minGapB]
  | cons a rest ih =>
    cases rest with
    | nil =>
      simp only [List.cons_append, List.nil_append, minGapB, Bool.and_eq_true,
        decide_eq_true_eq]
      exact ⟨hlast a rfl, trivial⟩
    | cons b rest2 =>
      simp only [minGapB, Bool.and_eq_true, decide_eq_true_eq] at h
      simp only [List.cons_append, minGapB, Bool.and_eq_true, decide_eq_true_eq]
      refine ⟨h.1, ?_⟩
      have := ih h.2 (fun x hx => hlast x (by rw [List.getLast?_cons_cons]; exact hx))
      simpa using this

/-- On a successful upstream call, `call_openai_api` issues the request no
earlier than `MIN_TIME_BETWEEN_REQUESTS` after the shared timestamp, and
leaves the timestamp at the completion time. -/
theorem call_openai_api_step (env : Env) (prompt : String) (st : PipeState)
    (c : String) (hc : env.gen st.callTimes.length = .ok c)
    (h1 : st.last_request_time ≤ st.now) :
    ∃ t, (call_openai_api env prompt st).2 =
        ⟨st.files, t + env.dur st.callTimes.length,
         t + env.dur st.callTimes.length, st.callTimes ++ [t]⟩ ∧
      st.last_request_time + MIN_TIME_BETWEEN_REQUESTS ≤ t := by
  rw [call_openai_api]
  by_cases hel : st.now - st.last_request_time < MIN_TIME_BETWEEN_REQUESTS
  · refine ⟨st.now + (MIN_TIME_BETWEEN_REQUESTS - (st.now - st.last_request_time)), ?_, ?_⟩
    · simp only [if_pos hel, hc]
    · simp only [MIN_TIME_BETWEEN_REQUESTS] at *
      omega
  · refine ⟨st.now, ?_, ?_⟩
    · simp only [if_neg hel, hc]
    · simp only [MIN_TIME_BETWEEN_REQUESTS] at *
      omega

theorem runThrottle_minGap (env : Env) (steps : List Nat) (st : PipeState)
    (hgen : ∀ i, ∃ c, env.gen i = .ok c)
    (h1 : st.last_request_time ≤ st.now)
    (h2 : minGapB MIN_TIME_BETWEEN_REQUESTS st.callTimes = true)
    (h3 : ∀ x, st.callTimes.getLast? = some x → x ≤ st.last_request_time) :
    minGapB MIN_TIME_BETWEEN_REQUESTS (runThrottle env steps st).callTimes = true := by
  induction steps generalizing st with
  | nil => simpa [runThrottle] using h2
  | cons idle rest ih =>
    rw [runThrottle]
    obtain ⟨c, hc⟩ := hgen (st.callTimes.length)
    obtain ⟨t, hst2, hge⟩ :=
      call_openai_api_step env "" { st with now := st.now + idle } c hc
        (Nat.le_trans h1 (Nat.le_add_right _ _))
    rw [hst2]
    apply ih
    · exact Nat.le_refl _
    · exact minGapB_append _ _ _ h2
        (fun x hx => Nat.le_trans (Nat.add_le_add_right (h3 x hx) _) hge)
    · intro x hx
      rw [List.getLast?_concat] at hx
      cases hx
      exact Nat.le_add_right _ _

/-- C8: with every upstream call succeeding, any sequence of generator
invocations through `call_openai_api` — with arbitrary idle time between
them and arbitrary upstream call durations — issues consecutive upstream
requests at least `MIN_TIME_BETWEEN_REQUESTS` apart, by blocking (never by
raising a rate-limit error; no such raise path exists). -/
theorem call_openai_api_enforces_min_interval (env : Env) (steps : List Nat)
    (files : List (String × String)) (n0 : Nat)
    (hgen : ∀ i, ∃ c, env.gen i = .ok c) :
    minGapB MIN_TIME_BETWEEN_REQUESTS
      (runThrottle env steps ⟨files, n0, 0, []⟩).callTimes = true :=
  runThrottle_minGap env steps ⟨files, n0, 0, []⟩ hgen (Nat.zero_le _) rfl
    (fun x hx => by simp at hx)

def c8Env : Env := ⟨fun _ _ => .ok "", fun _ => .ok "x", fun _ => 3⟩

/-- Witness for C8: three calls with idle gaps 0, 5 and 50 end up issued at
times 100, 123 and 176 — every gap at least 20. -/
theorem call_openai_api_enforces_min_interval_witness :
    (runThrottle c8Env [0, 5, 50] ⟨[], 100, 0, []⟩).callTimes = [100, 123, 176] ∧
    minGapB MIN_TIME_BETWEEN_REQUESTS
      (runThrottle c8Env [0, 5, 50] ⟨[], 100, 0, []⟩).callTimes = true :=
  ⟨rfl, call_openai_api_enforces_min_interval c8Env [0, 5, 50] [] 100
    (fun _ => ⟨"x", rfl⟩)⟩

/-! ## Claim C6 -/

theorem lookupFile_setFile (fs : List (String × String)) (k v : String) :
    lookupFile (setFile fs k v) k = some v := by
  induction fs with
  | nil => simp [setFile, lookupFile]
  | cons p rest ih =>
    by_cases h : p.1 = k
    · simp [setFile, lookupFile, h]
    · simp [setFile, lookupFile, h, ih]

/-- The time at which `call_openai_api` issues its upstream request: after
the throttling sleep, if one was needed. -/
def issueTime (st : PipeState) : Nat :=
  if st.now - st.last_request_time < MIN_TIME_BETWEEN_REQUESTS then
    st.now + (MIN_TIME_BETWEEN_REQUESTS - (st.now - st.last_request_time))
  else st.now

theorem call_openai_api_ok (env : Env) (prompt : String) (st : PipeState)
    (c : String) (hc : env.gen st.callTimes.length = .ok c) :
    call_openai_api env prompt st =
      (.ok (pyStrip c),
       ⟨st.files, issueTime st + env.dur st.callTimes.length,
        issueTime st + env.dur st.callTimes.length,
        st.callTimes ++ [issueTime st]⟩) := by
  rw [call_openai_api, issueTime]
  by_cases hel : st.now - st.last_request_time < MIN_TIME_BETWEEN_REQUESTS
  · simp only [if_pos hel, hc]
  · simp only [if_neg hel, hc]

/-- C6: in every cache-miss execution of `generate_weekly_workout` that
reaches the generator, the raw (stripped) generator output is written to the
week's cache file, and when parsing that fresh output fails, the raised
error still leaves the cache file holding the raw upstream payload (and
exactly one upstream call was made). -/
theorem generate_saves_raw_before_parse
    (env : Env) (u : WorkoutRequest) (week : Nat) (summary : String)
    (st : PipeState) (rtxt content : String) (e : PyErr)
    (hmiss : lookupFile st.files (cacheFileName week) = none)
    (hretr : env.retrieve (String.intercalate ", " u.goals) 5 = .ok rtxt)
    (hgen : env.gen st.callTimes.length = .ok content)
    (hparse : parse_openai_response (pyStrip content) = .error e) :
    ∃ st', generate_weekly_workout env u week summary st = (.error e, st') ∧
      lookupFile st'.files (cacheFileName week) =
        some (saveContent (pyStrip content)) ∧
      st'.callTimes.length = st.callTimes.length + 1 := by
  refine ⟨⟨setFile st.files (cacheFileName week) (saveContent (pyStrip content)),
    issueTime st + env.dur st.callTimes.length,
    issueTime st + env.dur st.callTimes.length,
    st.callTimes ++ [issueTime st]⟩, ?_, ?_, ?_⟩
  · rw [generate_weekly_workout]
    simp only [load_from_cache, hmiss]
    rw [generate_weekly_workout_miss]
    simp only [build_prompt, hretr]
    rw [call_openai_api_ok env _ st content hgen]
    simp only [save_to_cache, weeksFirst, hparse]
  · exact lookupFile_setFile st.files _ _
  · simp

/-! ## Claim C2 -/

def c2Env : Env := ⟨fun _ _ => .ok "", fun _ => .ok "", fun _ => 0⟩

def c2St : PipeState := ⟨[(cacheFileName 1, saveContent "x")], 100, 0, []⟩

/-- Counterexample for C2 as stated: week 1's cache entry exists and holds
the raw text `"x"`, which fails plan parsing — yet `generate_weekly_workout`
does not regenerate: it surfaces the parse error to the caller and leaves
the state untouched (no generator call, `callTimes` unchanged). -/
theorem generate_weekly_workout_corrupt_cache_counterexample :
    generate_weekly_workout c2Env c7Req 1 "" c2St =
      (.error (.valueError "Failed to parse OpenAI response: Expecting value"), c2St) :=
  rfl

/-- C2 (amended): a cache entry that exists but cannot be parsed is *not*
treated as a cache miss by the services-layer `generate_weekly_workout`:
whether the cache file itself is invalid JSON or the stored raw text fails
plan parsing, the error propagates and the generator is not invoked (the
state, including the upstream call log, is unchanged).  The API-layer
variant propagates an invalid-JSON cache file error the same way; only a
stored raw text whose parsing raises a `ValueError` falls through to
regeneration there. -/
theorem generate_weekly_workout_no_cache_recovery :
    (∀ (env : Env) (u : WorkoutRequest) (week : Nat) (summary : String)
       (st : PipeState) (content : String),
       lookupFile st.files (cacheFileName week) = some content →
       ((∃ m, json_loads content = .error m) ∨
        (∃ kvs raw e, json_loads content = .ok (.obj kvs) ∧
          lookupAssoc kvs "openai_response" = some (.str raw) ∧ raw ≠ "" ∧
          parse_openai_response raw = .error e)) →
       ∃ e, generate_weekly_workout env u week summary st = (.error e, st)) ∧
    (∀ (env : Env) (u : WorkoutRequest) (week : Nat) (summary : String)
       (st : PipeState) (content m : String),
       lookupFile st.files (cacheFileName week) = some content →
       json_loads content = .error (.jsonDecodeError m) →
       ApiWorkouts.generate_weekly_workout env u week summary st =
         (.error (.jsonDecodeError m), st)) ∧
    (∀ (env : Env) (u : WorkoutRequest) (week : Nat) (summary : String)
       (st : PipeState) (content raw : String)
       (kvs : List (String × Json)) (e : PyErr),
       lookupFile st.files (cacheFileName week) = some content →
       json_loads content = .ok (.obj kvs) →
       lookupAssoc kvs "openai_response" = some (.str raw) →
       raw ≠ "" →
       ApiWorkouts.parse_openai_response raw = .error e →
       ApiWorkouts.isValueErrorClass e = true →
       ApiWorkouts.generate_weekly_workout env u week summary st =
         ApiWorkouts.generate_weekly_workout_miss env u week summary st) := by
  refine ⟨?_, ?_, ?_⟩
  · intro env u week summary st content hfile hdis
    cases hdis with
    | inl hm =>
      obtain ⟨m, hm⟩ := hm
      exact ⟨m, by simp [generate_weekly_workout, load_from_cache, hfile, hm]⟩
    | inr hr =>
      obtain ⟨kvs, raw, e, h1, h2, h3, h4⟩ := hr
      refine ⟨e, ?_⟩
      simp [generate_weekly_workout, load_from_cache, hfile, h1, h2, pyTruthy, h3,
        parse_json_arg, h4, weeksFirst]
  · intro env u week summary st content m hfile hm
    simp [ApiWorkouts.generate_weekly_workout, load_from_cache, hfile, hm]
  · intro env u week summary st content raw kvs e hfile h1 h2 h3 h4 h5
    simp [ApiWorkouts.generate_weekly_workout, load_from_cache, hfile, h1, h2,
      pyTruthy, h3, ApiWorkouts.parse_json_arg, h4, weeksFirst, h5]

/-- Witness for the amended C2 at the concrete corrupted cache entry. -/
theorem generate_weekly_workout_no_cache_recovery_witness :
    ∃ e, generate_weekly_workout c2Env c7Req 1 "" c2St = (.error e, c2St) :=
  generate_weekly_workout_no_cache_recovery.1 c2Env c7Req 1 "" c2St
    (saveContent "x") rfl
    (.inr ⟨[("openai_response", .str "x")], "x",
      .valueError "Failed to parse OpenAI response: Expecting value", rfl, rfl,
      by decide, rfl⟩)

/-! ## Claim C3 -/

def c3Req : WorkoutRequest :=
  ⟨"Sam", 30, "intermediate", ["strength"], ["barbell"], none, none, some 6,
   none, none, 1, none⟩

def c3St : PipeState := ⟨[(cacheFileName 1, saveContent c4Inner)], 100, 0, []⟩

/-- Counterexample for C3 as stated: a warm cache in the claim's sense —
every week's cache file present and parseable — on which `build` produces no
`WorkoutPlan` at all: the cached payload parses to a plan with zero weeks
and the unguarded `.weeks[0]` aborts the build with `IndexError`. -/
theorem generate_workout_with_ai_warm_cache_counterexample :
    parse_openai_response c4Inner = .ok ⟨"P", []⟩ ∧
    generate_workout_with_ai c2Env c3Req c3St = (.error .indexError, c3St) :=
  ⟨rfl, rfl⟩

theorem build_weeks_warm (env : Env) (u : WorkoutRequest) (n : Nat) :
    ∀ (week : Nat) (summary : String) (st : PipeState),
    (∀ wk, week ≤ wk → wk < week + n →
      ∃ content kvs raw p w ws' s,
        lookupFile st.files (cacheFileName wk) = some content ∧
        json_loads content = .ok (.obj kvs) ∧
        lookupAssoc kvs "openai_response" = some (.str raw) ∧ raw ≠ "" ∧
        parse_openai_response raw = .ok p ∧ p.weeks = w :: ws' ∧
        summarize_week_for_next_prompt w = .ok s) →
    ∃ ws, build_weeks env u n week summary st = (.ok ws, st) := by
  induction n with
  | zero => intro week summary st _; exact ⟨[], rfl⟩
  | succ m ih =>
    intro week summary st hwarm
    obtain ⟨content, kvs, raw, p, w, ws', s, hfile, hjson, hlook, hraw, hparse,
      hweeks, hsum⟩ := hwarm week (Nat.le_refl _) (by omega)
    have hgen : generate_weekly_workout env u week summary st = (.ok w, st) := by
      simp [generate_weekly_workout, load_from_cache, hfile, hjson, hlook,
        pyTruthy, hraw, parse_json_arg, hparse, weeksFirst, hweeks]
    obtain ⟨ws, hws⟩ := ih (week + 1) s st
      (fun wk h1 h2 => hwarm wk (by omega) (by omega))
    refine ⟨w :: ws, ?_⟩
    rw [build_weeks, hgen]
    dsimp only
    rw [hsum]
    dsimp only
    rw [hws]

/-- C3 (amended): when every week's cache entry is present, truthy,
parseable to a plan with at least one week, and that first week summarizes
without error, `build` succeeds without touching the state — so a second
call returns the identical plan and the upstream call log never grows
(zero generator calls on either run). -/
theorem generate_workout_with_ai_idempotent_on_good_cache
    (env : Env) (u : WorkoutRequest) (st : PipeState)
    (hwarm : ∀ week, 1 ≤ week → week ≤ u.duration →
      ∃ content kvs raw p w ws' s,
        lookupFile st.files (cacheFileName week) = some content ∧
        json_loads content = .ok (.obj kvs) ∧
        lookupAssoc kvs "openai_response" = some (.str raw) ∧ raw ≠ "" ∧
        parse_openai_response raw = .ok p ∧ p.weeks = w :: ws' ∧
        summarize_week_for_next_prompt w = .ok s) :
    ∃ plan, generate_workout_with_ai env u st = (.ok plan, st) ∧
      generate_workout_with_ai env u
        ((generate_workout_with_ai env u st).2) = (.ok plan, st) ∧
      ((generate_workout_with_ai env u st).2).callTimes = st.callTimes := by
  obtain ⟨ws, hws⟩ := build_weeks_warm env u u.duration 1 "" st
    (fun wk h1 h2 => hwarm wk h1 (by omega))
  have h1 : generate_workout_with_ai env u st =
      (.ok ⟨u.name ++ apos ++ "s Plan", ws⟩, st) := by
    rw [generate_workout_with_ai, hws]
  refine ⟨⟨u.name ++ apos ++ "s Plan", ws⟩, h1, ?_, ?_⟩
  · rw [h1]; exact h1
  · rw [h1]

def c3OneWeekRaw : String := "\x7b\"name\": \"P\", \"weeks\": [\x7b\"days\": []\x7d]\x7d"

def c3WarmSt : PipeState := ⟨[(cacheFileName 1, saveContent c3OneWeekRaw)], 100, 0, []⟩

/-- Witness for the amended C3 at a concrete warm single-week cache. -/
theorem generate_workout_with_ai_idempotent_on_good_cache_witness :
    ∃ plan, generate_workout_with_ai c2Env c3Req c3WarmSt = (.ok plan, c3WarmSt) ∧
      generate_workout_with_ai c2Env c3Req
        ((generate_workout_with_ai c2Env c3Req c3WarmSt).2) = (.ok plan, c3WarmSt) ∧
      ((generate_workout_with_ai c2Env c3Req c3WarmSt).2).callTimes =
        c3WarmSt.callTimes :=
  generate_workout_with_ai_idempotent_on_good_cache c2Env c3Req c3WarmSt
    (fun week h1 h2 => by
      have hw : week = 1 := by
        simp only [c3Req] at h2
        omega
      subst hw
      exact ⟨saveContent c3OneWeekRaw, [("openai_response", .str c3OneWeekRaw)],
        c3OneWeekRaw, ⟨"P", [⟨[]⟩]⟩, ⟨[]⟩, [], "", rfl, rfl, rfl, by decide,
        rfl, rfl, rfl⟩)

/-! ## Claim C5 -/

theorem build_weeks_length (env : Env) (u : WorkoutRequest) (n : Nat) :
    ∀ (week : Nat) (summary : String) (st : PipeState) (ws : List Week)
      (st' : PipeState),
    build_weeks env u n week summary st = (.ok ws, st') → ws.length = n := by
  induction n with
  | zero =>
    intro week summary st ws st' h
    rw [build_weeks] at h
    cases h
    rfl
  | succ m ih =>
    intro week summary st ws st' h
    rw [build_weeks] at h
    rcases hg : generate_weekly_workout env u week summary st with ⟨res, st1⟩
    rw [hg] at h
    cases res with
    | error e => simp at h
    | ok wk =>
      dsimp only at h
      cases hsum : summarize_week_for_next_prompt wk with
      | error e => rw [hsum] at h; simp at h
      | ok s' =>
        rw [hsum] at h
        dsimp only at h
        rcases hrec : build_weeks env u m (week + 1) s' st1 with ⟨res2, st2⟩
        rw [hrec] at h
        cases res2 with
        | error e => simp at h
        | ok ws2 =>
          simp only [Except.ok.injEq, Prod.mk.injEq] at h
          rw [← h.1]
          simp [ih _ _ _ _ _ hrec]

/-- C5: whenever the week loop succeeds (every per-week generation step
succeeds), `generate_workout_with_ai` returns a plan holding exactly the
`duration` weeks the loop produced, in order, named after the requester with
`'s Plan` appended. -/
theorem generate_workout_with_ai_duration_and_name
    (env : Env) (u : WorkoutRequest) (st : PipeState)
    (_hd : 1 ≤ u.duration) (ws : List Week) (st' : PipeState)
    (hloop : build_weeks env u u.duration 1 "" st = (.ok ws, st')) :
    generate_workout_with_ai env u st =
      (.ok ⟨u.name ++ apos ++ "s Plan", ws⟩, st') ∧ ws.length = u.duration :=
  ⟨by rw [generate_workout_with_ai, hloop],
   build_weeks_length env u u.duration 1 "" st ws st' hloop⟩

def c5Env : Env := ⟨fun _ _ => .ok "ref", fun _ => .ok c3OneWeekRaw, fun _ => 7⟩

def c5StAfter : PipeState :=
  ⟨[(cacheFileName 1, saveContent c3OneWeekRaw)], 107, 107, [100]⟩

/-- Witness for C5: an empty cache, a generator that answers a one-week
payload, duration 1. -/
theorem generate_workout_with_ai_duration_and_name_witness :
    generate_workout_with_ai c5Env c3Req ⟨[], 100, 0, []⟩ =
      (.ok ⟨c3Req.name ++ apos ++ "s Plan", [⟨[]⟩]⟩, c5StAfter) ∧
    ([(⟨[]⟩ : Week)] : List Week).length = c3Req.duration :=
  generate_workout_with_ai_duration_and_name c5Env c3Req ⟨[], 100, 0, []⟩
    (by decide) [⟨[]⟩] c5StAfter rfl

/-! ## Claim C9 -/

theorem bucketsCount_add (acc : SearchBuckets) (r : SearchResult)
    (cat : String) (iw ic : Bool) :
    bucketsCount
      (if cat = "warmup" && iw then { acc with warmups := acc.warmups ++ [r] }
       else if cat = "quality" && ic then { acc with cooldowns := acc.cooldowns ++ [r] }
       else { acc with results := acc.results ++ [r] }) = bucketsCount acc + 1 := by
  by_cases h1 : (cat = "warmup" && iw) = true
  · simp [h1, bucketsCount]; omega
  · by_cases h2 : (cat = "quality" && ic) = true
    · simp [h1, h2, bucketsCount]; omega
    · simp [h1, h2, bucketsCount]; omega

theorem searchLoop_count (metadata : List WorkoutMeta) (dist : Nat → Int)
    (iw ic : Bool) (idxs : List Int) :
    ∀ (i : Nat) (acc : SearchBuckets),
    (∀ idx ∈ idxs, idx < (metadata.length : Int) ∧
      ∃ w, pyListGet metadata idx = .ok w) →
    ∃ b, searchLoop metadata dist iw ic i idxs acc = .ok b ∧
      bucketsCount b = bucketsCount acc + idxs.length := by
  induction idxs with
  | nil => intro i acc _; exact ⟨acc, rfl, by simp⟩
  | cons idx rest ih =>
    intro i acc h
    obtain ⟨hlt, w, hw⟩ := h idx (List.mem_cons_self _ _)
    obtain ⟨b, hb, hc⟩ := ih (i + 1)
      (if get_workout_category w = "warmup" && iw then
        { acc with warmups := acc.warmups ++
          [⟨i + 1, w.title, w.description, w.score_type, w.workout_type,
            w.track, w.created_at, dist i⟩] }
       else if get_workout_category w = "quality" && ic then
        { acc with cooldowns := acc.cooldowns ++
          [⟨i + 1, w.title, w.description, w.score_type, w.workout_type,
            w.track, w.created_at, dist i⟩] }
       else
        { acc with results := acc.results ++
          [⟨i + 1, w.title, w.description, w.score_type, w.workout_type,
            w.track, w.created_at, dist i⟩] })
      (fun x hx => h x (List.mem_cons_of_mem _ hx))
    refine ⟨b, ?_, ?_⟩
    · rw [searchLoop, if_pos hlt, hw]
      exact hb
    · rw [hc, bucketsCount_add]
      simp only [List.length_cons]
      omega

/-- C9 (amended): when the index holds fewer than `k` entries (and the
metadata list is nonempty), the `-1` padding FAISS returns also passes the
`idx < len(workout_metadata)` guard, so `search_similar_workouts` returns
exactly `k` items in total — not fewer — with the padded slots resolved
against the metadata list (Python's negative indexing reads its last
entry).  And for `k ≤ 0` it does not return an empty sequence: the faiss
call itself rejects a non-positive `k` (`assert k > 0`) and that error
propagates out of the unguarded function. -/
theorem search_similar_workouts_padding :
    (∀ (metadata : List WorkoutMeta) (rank : Nat → Nat) (dist : Nat → Int)
       (q : String) (k : Int) (iw ic : Bool),
       metadata ≠ [] →
       (metadata.length : Int) < k →
       (∀ i, i < metadata.length → rank i < metadata.length) →
       ∃ b, search_similar_workouts metadata rank dist q k iw ic = .ok b ∧
         bucketsCount b = k.toNat) ∧
    (∀ (metadata : List WorkoutMeta) (rank : Nat → Nat) (dist : Nat → Int)
       (q : String) (k : Int) (iw ic : Bool),
       k ≤ 0 →
       search_similar_workouts metadata rank dist q k iw ic =
         .error (.assertionError "k > 0")) := by
  constructor
  · intro metadata rank dist q k iw ic hne hk hrank
    have hfa : faiss_search_ids metadata.length rank k =
        .ok ((List.range k.toNat).map
          (fun i => if i < metadata.length then (rank i : Int) else -1)) := by
      rw [faiss_search_ids, if_neg (by omega)]
    have hmem : ∀ idx ∈ (List.range k.toNat).map
          (fun i => if i < metadata.length then (rank i : Int) else -1),
        idx < (metadata.length : Int) ∧ ∃ w, pyListGet metadata idx = .ok w := by
      intro idx hidx
      simp only [List.mem_map, List.mem_range] at hidx
      obtain ⟨i, hi, hidx⟩ := hidx
      have hlen : 1 ≤ metadata.length := by
        cases metadata with
        | nil => exact absurd rfl hne
        | cons a l => simp
      by_cases hin : i < metadata.length
      · rw [if_pos hin] at hidx
        subst hidx
        have hr := hrank i hin
        constructor
        · exact_mod_cast hr
        · rw [pyListGet]
          have hcond : (0 ≤ if ((rank i : Int)) < 0 then
                (rank i : Int) + (metadata.length : Int) else (rank i : Int)) ∧
              (if ((rank i : Int)) < 0 then
                (rank i : Int) + (metadata.length : Int) else (rank i : Int)).toNat <
                metadata.length := by
            constructor <;> split <;> omega
          exact ⟨_, dif_pos hcond⟩
      · rw [if_neg hin] at hidx
        subst hidx
        constructor
        · omega
        · rw [pyListGet]
          have hcond : (0 ≤ if ((-1 : Int)) < 0 then
                (-1 : Int) + (metadata.length : Int) else (-1 : Int)) ∧
              (if ((-1 : Int)) < 0 then
                (-1 : Int) + (metadata.length : Int) else (-1 : Int)).toNat <
                metadata.length := by
            constructor <;> split <;> omega
          exact ⟨_, dif_pos hcond⟩
    obtain ⟨b, hb, hc⟩ := searchLoop_count metadata dist iw ic
      ((List.range k.toNat).map
        (fun i => if i < metadata.length then (rank i : Int) else -1))
      0 ⟨[], [], []⟩ hmem
    refine ⟨b, ?_, ?_⟩
    · rw [search_similar_workouts, hfa]
      exact hb
    · rw [hc]
      simp [bucketsCount]
  · intro metadata rank dist q k iw ic hk
    rw [search_similar_workouts, faiss_search_ids, if_pos hk]

def c9Meta : WorkoutMeta := ⟨"x", "d", "", "N/A", "t", "2020"⟩

/-- Counterexample for C9 as stated: an index holding one entry, queried
with `k = 2`, returns two items (the claim requires fewer than `k`, i.e. at
most one): the `-1` padding slips past the guard and duplicates the last
metadata entry at rank 2. -/
theorem search_similar_workouts_padding_counterexample :
    search_similar_workouts [c9Meta] (fun _ => 0) (fun _ => 0) "q" 2 true false =
      .ok ⟨[⟨1, "x", "d", "", "N/A", "t", "2020", 0⟩,
            ⟨2, "x", "d", "", "N/A", "t", "2020", 0⟩], [], []⟩ ∧
    bucketsCount ⟨[⟨1, "x", "d", "", "N/A", "t", "2020", 0⟩,
            ⟨2, "x", "d", "", "N/A", "t", "2020", 0⟩], [], []⟩ = 2 :=
  ⟨rfl, rfl⟩

/-- Witness for the amended C9 at the same concrete one-entry index. -/
theorem search_similar_workouts_padding_witness :
    ∃ b, search_similar_workouts [c9Meta] (fun _ => 0) (fun _ => 0) "q" 2
        true false = .ok b ∧ bucketsCount b = (2 : Int).toNat :=
  search_similar_workouts_padding.1 [c9Meta] (fun _ => 0) (fun _ => 0) "q" 2
    true false (by simp) (by decide) (fun i hi => by simp)

/-! ## Claim C10 -/

def c10Env : Env := ⟨fun _ _ => .ok "ref", fun _ => .ok c4Inner, fun _ => 1⟩

def c10St : PipeState := ⟨[], 50, 0, []⟩

def c10StAfter : PipeState :=
  ⟨[(cacheFileName 1, saveContent c4Inner)], 51, 51, [50]⟩

/-- C10: a structurally valid generator payload with a `name` and an empty
`weeks` list parses successfully into a zero-week plan; the weekly step's
unguarded `.weeks[0]` then raises `IndexError`, which is not among the
exception classes the parser wraps into `ValueError`, and the whole build
fails with that untyped indexing error. -/
theorem empty_weeks_plan_untyped_index_error :
    parse_openai_response c4Inner = .ok ⟨"P", []⟩ ∧
    generate_weekly_workout c10Env c3Req 1 "" c10St =
      (.error .indexError, c10StAfter) ∧
    generate_workout_with_ai c10Env c3Req c10St =
      (.error .indexError, c10StAfter) ∧
    caughtByParser .indexError = false :=
  ⟨rfl, rfl, rfl, rfl⟩

def c6Env : Env := ⟨fun _ _ => .ok "similar", fun _ => .ok "not json", fun _ => 2⟩

/-- Witness for C6: a fresh cache, a generator answering unparseable text —
the parse failure surfaces, yet the cache file holds the raw payload. -/
theorem generate_saves_raw_before_parse_witness :
    ∃ st', generate_weekly_workout c6Env c7Req 1 "" ⟨[], 100, 0, []⟩ =
        (.error (.valueError "Failed to parse OpenAI response: Expecting value"), st') ∧
      lookupFile st'.files (cacheFileName 1) =
        some (saveContent (pyStrip "not json")) ∧
      st'.callTimes.length = (⟨[], 100, 0, []⟩ : PipeState).callTimes.length + 1 :=
  generate_saves_raw_before_parse c6Env c7Req 1 "" ⟨[], 100, 0, []⟩ "similar"
    "not json" (.valueError "Failed to parse OpenAI response: Expecting value")
    rfl rfl rfl rfl
